import Mathlib

set_option maxRecDepth 8192

/-!
Verification of the dashboard query-composition layer
(`packages/shared/src/server/repositories/dashboards.ts`).

SQL text is modelled as `String`, parameter maps as association lists with
JavaScript object-spread semantics, and each metric template as a pure
function from `(projectId, filter list)` to the query call it hands to the
store client, plus a pure reshaping of the rows the store returns.

The filter compiler (`FilterList.apply`, `createFilterFromFilterState`) and
the dashboard column catalog live outside the visible source; they are
modelled from the specification where marked.
-/

/-- Modelled from the spec: a materialized filter (one predicate) as produced
by `createFilterFromFilterState` against the dashboard column catalog.  The
fields are the ones the visible source reads (`field`, `operator`,
`clickhouseTable`, `value`) plus the store type used in the placeholder. -/
structure ChFilter where
  field : String
  operator : String
  value : String
  clickhouseTable : String
  chType : String
deriving DecidableEq, Repr

/-- Modelled from the spec: one entry of the dashboard column catalog
(`dashboardColumnDefinitions`, not part of the visible source): the physical
column, its owning logical table and its store type. -/
structure CatalogEntry where
  clickhouseSelect : String
  clickhouseTableName : String
  chType : String
deriving DecidableEq, Repr

/-- Modelled from the spec: the dashboard column catalog.  The spec names the
three logical tables (traces, observations, scores) and the columns the
visible templates special-case (trace/score timestamps, observation start
time, trace user identifier); entries are representative physical columns. -/
def dashboardColumnDefinitions : List CatalogEntry :=
  [⟨"timestamp", "traces", "DateTime"⟩,
   ⟨"user_id", "traces", "String"⟩,
   ⟨"name", "traces", "String"⟩,
   ⟨"timestamp", "scores", "DateTime"⟩,
   ⟨"name", "scores", "String"⟩,
   ⟨"value", "scores", "Decimal"⟩,
   ⟨"start_time", "observations", "DateTime"⟩,
   ⟨"provided_model_name", "observations", "String"⟩]

/-- Modelled from the spec: the operator set supported by the filter
compiler. -/
def chOperators : List String :=
  ["=", "!=", ">", ">=", "<", "<=", "in", "not-in"]

/-- A materialized filter is catalog-validated: its column, table and store
type come from the catalog and its operator from the supported set. -/
def validFilter (f : ChFilter) : Prop :=
  (⟨f.field, f.clickhouseTable, f.chType⟩ : CatalogEntry) ∈ dashboardColumnDefinitions ∧
    f.operator ∈ chOperators

instance (f : ChFilter) : Decidable (validFilter f) := by
  unfold validFilter; infer_instance

/-- Every filter of the list is catalog-validated. -/
def validList (fl : List ChFilter) : Prop := ∀ f ∈ fl, validFilter f

instance (fl : List ChFilter) : Decidable (validList fl) := by
  unfold validList; infer_instance

/-- Decimal rendering of a natural number (fuel-indexed helper). -/
def decRepAux : Nat → Nat → List Char
  | 0, _ => []
  | fuel + 1, n =>
    if n < 10 then [Nat.digitChar n]
    else decRepAux fuel (n / 10) ++ [Nat.digitChar (n % 10)]

/-- Decimal rendering of a natural number, used to index placeholder names. -/
def decRep (n : Nat) : String := String.mk (decRepAux (n + 1) n)

/-- Modelled from the spec: the collision-free placeholder name for the
filter at position `i` of the list, derived from the column name plus the
position index. -/
def phName (f : ChFilter) (i : Nat) : String := f.field ++ "_" ++ decRep i

/-- Modelled from the spec: the rendered predicate of a single filter — the
logical-table-qualified column, the operator and a typed named placeholder. -/
def renderFilter (f : ChFilter) (i : Nat) : String :=
  f.clickhouseTable ++ "." ++ f.field ++ " " ++ f.operator ++ " \x7b" ++
    phName f i ++ ": " ++ f.chType ++ "\x7d"

/-- Conjunction of rendered predicates; the empty list yields the tautology
the spec prescribes so the result can always follow `WHERE ... AND`. -/
def conjoin : List String → String
  | [] => "1=1"
  | [q] => q
  | q :: q2 :: qs => q ++ " AND " ++ conjoin (q2 :: qs)

/-- Rendered predicates of a filter list, indexing placeholders from `i`. -/
def renderList (i : Nat) : List ChFilter → List String
  | [] => []
  | f :: fs => renderFilter f i :: renderList (i + 1) fs

/-- Parameter bindings of a filter list, indexing placeholders from `i`. -/
def paramsList (i : Nat) : List ChFilter → List (String × String)
  | [] => []
  | f :: fs => (phName f i, f.value) :: paramsList (i + 1) fs

/-- The compiled result of a filter list: a boolean SQL expression plus the
parameter map binding its placeholders. -/
structure AppliedFilter where
  query : String
  params : List (String × String)
deriving DecidableEq, Repr

/-- Modelled from the spec: `FilterList.apply` — the filter compiler.  It
conjoins the rendered predicates (tautology when empty) and binds one
uniquely named parameter per filter. -/
def FilterList.apply (fl : List ChFilter) : AppliedFilter :=
  { query := conjoin (renderList 0 fl), params := paramsList 0 fl }

/-- Modelled from the spec: `convertDateToClickhouseDateTime` formats a date
for the store; the exact text format is immaterial to every claim, so it is
modelled as the identity on the date text. -/
def convertDateToClickhouseDateTime (d : String) : String := d

/-- JavaScript object update: set key `k` to `v`, overwriting an existing
entry for `k` (keeping its position) or appending a new one. -/
def objSet (m : List (String × String)) (k v : String) : List (String × String) :=
  if m.any (fun p => p.1 == k) then
    m.map (fun p => if p.1 == k then (k, v) else p)
  else m ++ [(k, v)]

/-- JavaScript object spread `\x7b ...m, ...ps \x7d`: each entry of `ps` is
assigned into `m` in order, later keys overwriting earlier ones. -/
def objSpread (m ps : List (String × String)) : List (String × String) :=
  ps.foldl (fun acc p => objSet acc p.1 p.2) m

/-- The keys of a parameter map. -/
def keysOf (m : List (String × String)) : List String := m.map Prod.fst

/-- JavaScript object property lookup (first entry wins; keys are unique by
construction of `objSet`). -/
def lookupKey (m : List (String × String)) (k : String) : Option String :=
  (m.find? (fun p => p.1 == k)).map Prod.snd

/-- JavaScript template-literal interpolation of a possibly-`undefined`
string: `undefined` interpolates as the literal text `undefined`. -/
def jsInterp : Option String → String
  | some s => s
  | none => "undefined"

/-- The six supported granularities (the `DateTrunc` union type). -/
def dateTruncValues : List String :=
  ["year", "month", "week", "day", "hour", "minute"]

/-- `orderByTimeSeries` from the source: gap-filled ascending ordering for a
granularity, `none` (JS `undefined`) on the default branch. -/
def orderByTimeSeries (dateTrunc : String) (col : String) : Option String :=
  match dateTrunc with
  | "year" => some ("ORDER BY " ++ col ++ " ASC WITH FILL STEP toIntervalYear(1)")
  | "month" => some ("ORDER BY " ++ col ++ " ASC WITH FILL STEP toIntervalMonth(1)")
  | "week" => some ("ORDER BY " ++ col ++ " ASC WITH FILL STEP toIntervalWeek(1)")
  | "day" => some ("ORDER BY " ++ col ++ " ASC WITH FILL STEP toIntervalDay(1)")
  | "hour" => some ("ORDER BY " ++ col ++ " ASC WITH FILL STEP toIntervalHour(1)")
  | "minute" => some ("ORDER BY " ++ col ++ " ASC WITH FILL STEP toIntervalMinute(1)")
  | _ => none

/-- `selectTimeseriesColumn` from the source: period-start truncation of
`col` aliased to `outName`, `none` (JS `undefined`) on the default branch. -/
def selectTimeseriesColumn (dateTrunc : String) (col : String) (outName : String) : Option String :=
  match dateTrunc with
  | "year" => some ("toStartOfYear(" ++ col ++ ") as " ++ outName)
  | "month" => some ("toStartOfMonth(" ++ col ++ ") as " ++ outName)
  | "week" => some ("toStartOfWeek(" ++ col ++ ") as " ++ outName)
  | "day" => some ("toStartOfDay(" ++ col ++ ") as " ++ outName)
  | "hour" => some ("toStartOfHour(" ++ col ++ ") as " ++ outName)
  | "minute" => some ("toStartOfMinute(" ++ col ++ ") as " ++ outName)
  | _ => none

/-- A query call handed to the store client: the SQL text and its parameter
map. -/
structure QueryCall where
  query : String
  params : List (String × String)
deriving DecidableEq, Repr

/-- Query call built by `getTotalTraces`. -/
def getTotalTracesCall (projectId : String) (filter : List ChFilter) : QueryCall :=
  let chFilter := FilterList.apply filter
  { query := "\n    SELECT \n      count(id) as count \n    FROM traces t FINAL \n    WHERE project_id = \x7bprojectId: String\x7d\n    AND " ++ chFilter.query
    params := objSpread [("projectId", projectId)] chFilter.params }

/-- Query call built by `getObservationsCostGroupedByName`. -/
def getObservationsCostGroupedByNameCall (projectId : String) (filter : List ChFilter) : QueryCall :=
  let appliedFilter := FilterList.apply filter
  let hasTraceFilter := filter.find? (fun f => f.clickhouseTable == "traces")
  { query := "\n    SELECT \n      provided_model_name as name,\n      sumMap(cost_details)[\x27total\x27] as sum_cost_details,\n      sumMap(usage_details)[\x27total\x27] as sum_usage_details\n    FROM observations o FINAL " ++
      (if hasTraceFilter.isSome then "LEFT JOIN traces t ON o.trace_id = t.id AND o.project_id = t.project_id" else "") ++
      "\n    WHERE project_id = \x7bprojectId: String\x7d\n    AND " ++ appliedFilter.query ++
      "\n    GROUP BY provided_model_name\n    ORDER BY sumMap(cost_details)[\x27total\x27] DESC\n    "
    params := objSpread [("projectId", projectId)] appliedFilter.params }

/-- Query call built by `getScoreAggregate`. -/
def getScoreAggregateCall (projectId : String) (filter : List ChFilter) : QueryCall :=
  let timeFilter := filter.find? (fun f =>
    f.field == "timestamp" && (f.operator == ">=" || f.operator == ">"))
  let chFilterApplied := FilterList.apply filter
  let hasTraceFilter := filter.find? (fun f => f.clickhouseTable == "traces")
  { query := "\n    SELECT \n      s.name,\n      count(*) as count,\n      avg(s.value) as avg_value,\n      s.source,\n      s.data_type\n    FROM scores s FINAL \n     " ++
      (if hasTraceFilter.isSome then "JOIN traces t FINAL ON t.id = s.trace_id AND t.project_id = s.project_id" else "") ++
      "\n    WHERE s.project_id = \x7bprojectId: String\x7d\n    AND " ++ chFilterApplied.query ++
      "\n    " ++
      (if timeFilter.isSome && hasTraceFilter.isSome then "AND t.timestamp >= \x7btracesTimestamp: DateTime\x7d - INTERVAL 1 HOUR" else "") ++
      "\n    GROUP BY s.name, s.source, s.data_type\n    ORDER BY count(*) DESC\n    "
    params := objSpread (objSpread [("projectId", projectId)] chFilterApplied.params)
      (match timeFilter with
        | some tf => [("tracesTimestamp", convertDateToClickhouseDateTime tf.value)]
        | none => []) }

/-- Query call built by `groupTracesByTime` (for an arbitrary `groupBy`
string, matching the JS runtime behaviour). -/
def groupTracesByTimeCall (projectId : String) (filter : List ChFilter) (groupBy : String) : QueryCall :=
  let chFilter := FilterList.apply filter
  { query := "\n    SELECT \n      " ++ jsInterp (selectTimeseriesColumn groupBy "timestamp" "timestamp") ++
      ",\n      count(*) as count\n    FROM traces t FINAL\n    WHERE project_id = \x7bprojectId: String\x7d\n    AND " ++
      chFilter.query ++ "\n    GROUP BY timestamp\n    " ++
      jsInterp (orderByTimeSeries groupBy "timestamp") ++ "\n    "
    params := objSpread [("projectId", projectId)] chFilter.params }

/-- Query call built by `getObservationUsageByTime`. -/
def getObservationUsageByTimeCall (projectId : String) (filter : List ChFilter) (groupBy : String) : QueryCall :=
  let appliedFilter := FilterList.apply filter
  let hasTraceFilter := filter.find? (fun f => f.clickhouseTable == "traces")
  { query := "\n    SELECT \n      " ++ jsInterp (selectTimeseriesColumn groupBy "start_time" "start_time") ++
      ",\n      sumMap(usage_details)[\x27total\x27] as sum_usage_details,\n      sumMap(cost_details)[\x27total\x27] as sum_cost_details,\n      provided_model_name\n    FROM observations o FINAL\n    " ++
      (if hasTraceFilter.isSome then "LEFT JOIN traces t ON o.trace_id = t.id AND o.project_id = t.project_id" else "") ++
      "\n    WHERE project_id = \x7bprojectId: String\x7d\n    AND " ++ appliedFilter.query ++
      "\n    GROUP BY start_time, provided_model_name\n    " ++
      jsInterp (orderByTimeSeries groupBy "start_time") ++ "\n    "
    params := objSpread [("projectId", projectId)] appliedFilter.params }

/-- Query call built by `getDistinctModels`. -/
def getDistinctModelsCall (projectId : String) (filter : List ChFilter) : QueryCall :=
  let appliedFilter := FilterList.apply filter
  let hasTraceFilter := filter.find? (fun f => f.clickhouseTable == "traces")
  { query := "\n    SELECT \n      distinct(provided_model_name) as model\n    FROM observations o FINAL\n    " ++
      (if hasTraceFilter.isSome then "LEFT JOIN traces t ON o.trace_id = t.id AND o.project_id = t.project_id" else "") ++
      "\n    WHERE project_id = \x7bprojectId: String\x7d\n    AND " ++ appliedFilter.query ++ "\n    "
    params := objSpread [("projectId", projectId)] appliedFilter.params }

/-- Query call built by `getModelUsageByUser`.  Note the unconditional join
to `traces` and the `tractTimestamp` placeholder spelling, both from the
source. -/
def getModelUsageByUserCall (projectId : String) (filter : List ChFilter) : QueryCall :=
  let appliedFilter := FilterList.apply filter
  let timeFilter := filter.find? (fun f =>
    f.clickhouseTable == "observations" && (f.field == "start_time" &&
      (f.operator == ">=" || f.operator == ">")))
  { query := "\n    SELECT \n      sumMap(usage_details)[\x27total\x27] as sum_usage_details,\n      sumMap(cost_details)[\x27total\x27] as sum_cost_details,\n      user_id\n    FROM observations o FINAL\n      JOIN traces t ON o.trace_id = t.id AND o.project_id = t.project_id\n    WHERE project_id = \x7bprojectId: String\x7d\n    AND t.user_id IS NOT NULL\n    AND " ++
      appliedFilter.query ++ "\n    " ++
      (if timeFilter.isSome then "AND t.timestamp >= \x7btractTimestamp: DateTime\x7d - INTERVAL 1 HOUR" else "") ++
      "\n    GROUP BY user_id\n    "
    params := objSpread (objSpread [("projectId", projectId)] appliedFilter.params)
      (match timeFilter with
        | some tf => [("tractTimestamp", tf.value)]
        | none => []) }

/-- Wire row of `getTotalTraces` (the source types `count` as a number). -/
structure TraceCountRow where
  count : Int
deriving DecidableEq, Repr

/-- Caller-facing row of `getTotalTraces`. -/
structure TotalTracesResult where
  countTraceId : Int
deriving DecidableEq, Repr

/-- `getTotalTraces`: executes the built call against the store and returns
`none` (JS `undefined`) when the store yields no rows, else the typed
singleton built from the first row. -/
def getTotalTraces (store : String → List (String × String) → List TraceCountRow)
    (projectId : String) (filter : List ChFilter) : Option (List TotalTracesResult) :=
  let call := getTotalTracesCall projectId filter
  match store call.query call.params with
  | [] => none
  | r :: _ => some [⟨r.count⟩]

/-- Model of a JavaScript `Date` built from timestamp text (`new Date(s)`);
the claims only concern that the conversion to a date value is applied, so
the instant is represented by its source text. -/
structure JsDate where
  iso : String
deriving DecidableEq, Repr

/-- Decimal value of a digit list (accumulator form). -/
def decVal : List Char → Nat → Nat
  | [], acc => acc
  | c :: cs, acc => decVal cs (acc * 10 + (c.toNat - 48))

/-- Model of JavaScript `Number(s)` on the nonnegative-integer-formatted
aggregate text the store returns for counts and usage sums; signs, fractions
and NaN behaviour are outside what any claim exercises. -/
def jsNumber (s : String) : Int := decVal s.data 0

/-- Wire row of `getObservationsCostGroupedByName` (sums typed as numbers by
the source). -/
structure CostByNameRow where
  name : String
  sum_cost_details : Int
  sum_usage_details : Int
deriving DecidableEq, Repr

/-- `getObservationsCostGroupedByName`: the store rows are returned to the
caller unchanged. -/
def getObservationsCostGroupedByName
    (store : String → List (String × String) → List CostByNameRow)
    (projectId : String) (filter : List ChFilter) : List CostByNameRow :=
  let call := getObservationsCostGroupedByNameCall projectId filter
  store call.query call.params

/-- Wire row of `getScoreAggregate` (the source types `count` and
`avg_value` as strings). -/
structure ScoreAggRow where
  name : String
  count : String
  avg_value : String
  source : String
  data_type : String
deriving DecidableEq, Repr

/-- `getScoreAggregate`: the store rows are returned to the caller
unchanged (no numeric parsing in the source). -/
def getScoreAggregate (store : String → List (String × String) → List ScoreAggRow)
    (projectId : String) (filter : List ChFilter) : List ScoreAggRow :=
  let call := getScoreAggregateCall projectId filter
  store call.query call.params

/-- Wire row of `groupTracesByTime` (timestamp and count arrive as text). -/
structure TracesByTimeRow where
  timestamp : String
  count : String
deriving DecidableEq, Repr

/-- Caller-facing row of `groupTracesByTime`. -/
structure TracesByTimeResult where
  timestamp : JsDate
  countTraceId : Int
deriving DecidableEq, Repr

/-- `groupTracesByTime`: maps each wire row to a date value and a parsed
count. -/
def groupTracesByTime (store : String → List (String × String) → List TracesByTimeRow)
    (projectId : String) (filter : List ChFilter) (groupBy : String) : List TracesByTimeResult :=
  let call := groupTracesByTimeCall projectId filter groupBy
  (store call.query call.params).map (fun row => ⟨⟨row.timestamp⟩, jsNumber row.count⟩)

/-- Wire row of `getObservationUsageByTime` (the source types the usage sum
as a string and the cost sum as a number). -/
structure ObsUsageByTimeRow where
  start_time : String
  sum_usage_details : String
  sum_cost_details : Int
  provided_model_name : String
deriving DecidableEq, Repr

/-- Caller-facing row of `getObservationUsageByTime`. -/
structure ObsUsageByTimeResult where
  start_time : JsDate
  sum_usage_details : Int
  sum_cost_details : Int
  provided_model_name : String
deriving DecidableEq, Repr

/-- `getObservationUsageByTime`: maps each wire row to a date value, a
parsed usage sum, the cost sum as received, and the model name. -/
def getObservationUsageByTime
    (store : String → List (String × String) → List ObsUsageByTimeRow)
    (projectId : String) (filter : List ChFilter) (groupBy : String) : List ObsUsageByTimeResult :=
  let call := getObservationUsageByTimeCall projectId filter groupBy
  (store call.query call.params).map (fun row =>
    ⟨⟨row.start_time⟩, jsNumber row.sum_usage_details, row.sum_cost_details,
      row.provided_model_name⟩)

/-- Wire row of `getDistinctModels`. -/
structure DistinctModelRow where
  model : String
deriving DecidableEq, Repr

/-- `getDistinctModels`: the store rows are returned unchanged. -/
def getDistinctModels (store : String → List (String × String) → List DistinctModelRow)
    (projectId : String) (filter : List ChFilter) : List DistinctModelRow :=
  let call := getDistinctModelsCall projectId filter
  store call.query call.params

/-- Wire row of `getModelUsageByUser` (usage sum as string, cost sum as
number). -/
structure ModelUsageByUserRow where
  sum_usage_details : String
  sum_cost_details : Int
  user_id : String
deriving DecidableEq, Repr

/-- Caller-facing row of `getModelUsageByUser`. -/
structure ModelUsageByUserResult where
  sumUsageDetails : Int
  sumCostDetails : Int
  userId : String
deriving DecidableEq, Repr

/-- `getModelUsageByUser`: parses the usage sum text; `Number` applied to
the already-numeric cost sum is the identity. -/
def getModelUsageByUser
    (store : String → List (String × String) → List ModelUsageByUserRow)
    (projectId : String) (filter : List ChFilter) : List ModelUsageByUserResult :=
  let call := getModelUsageByUserCall projectId filter
  (store call.query call.params).map (fun row =>
    ⟨jsNumber row.sum_usage_details, row.sum_cost_details, row.user_id⟩)

/-- The characters of `pat` occur consecutively somewhere in `s`. -/
def containsText (pat s : String) : Prop := pat.data <:+: s.data

instance (pat s : String) : Decidable (containsText pat s) :=
  List.decidableInfix pat.data s.data

/-- `c` does not occur in `s`. -/
def charFree (c : Char) (s : String) : Prop := c ∉ s.data

instance (c : Char) (s : String) : Decidable (charFree c s) := by
  unfold charFree; infer_instance

/-- Two fixed characters occur adjacently (in order) in the list. -/
def hasPair (c₁ c₂ : Char) : List Char → Bool
  | c :: d :: rest => (c == c₁ && d == c₂) || hasPair c₁ c₂ (d :: rest)
  | _ => false

/-- Absence of the adjacent pair `c₁ c₂` in a string. -/
def pairFree (c₁ c₂ : Char) (s : String) : Prop := hasPair c₁ c₂ s.data = false

instance (c₁ c₂ : Char) (s : String) : Decidable (pairFree c₁ c₂ s) := by
  unfold pairFree; infer_instance

/-- Decimal digit characters. -/
def digitChars : List Char := "0123456789".data

/-- Characters that can occur in catalog column names, table names, store
types and operators. -/
def filterTextChars : List Char := "abcdeghijklmnopqrstuvwxyz0123456789_DST=!<>-".data

/-- Characters that can occur anywhere in a compiled filter expression. -/
def allowedChars : List Char := filterTextChars ++ " .:\x7b\x7dAND".data

/-- Every character of `s` lies in `cs`. -/
def strCharsIn (s : String) (cs : List Char) : Prop := ∀ c ∈ s.data, c ∈ cs

instance (s : String) (cs : List Char) : Decidable (strCharsIn s cs) := by
  unfold strCharsIn; infer_instance

/-- Placeholder scanner: collects the text between each `\x7b` and the
following `:`; `st` holds the partial name while inside a placeholder. -/
def scanPH : List Char → Option (List Char) → List String
  | [], _ => []
  | c :: cs, none => if c = '\x7b' then scanPH cs (some []) else scanPH cs none
  | c :: cs, some acc =>
    if c = ':' then String.mk acc :: scanPH cs none else scanPH cs (some (acc ++ [c]))

/-- Final scanner state after consuming a character list. -/
def phState : List Char → Option (List Char) → Option (List Char)
  | [], st => st
  | c :: cs, none => phState cs (if c = '\x7b' then some [] else none)
  | c :: cs, some acc => phState cs (if c = ':' then none else some (acc ++ [c]))

/-- The named placeholders occurring in SQL text, in order. -/
def extractPH (s : String) : List String := scanPH s.data none

theorem containsText_appendLeft {pat b : String} (a : String)
    (h : containsText pat b) : containsText pat (a ++ b) := by
  unfold containsText at *
  rw [String.data_append]
  exact h.trans ⟨a.data, [], by simp⟩

theorem containsText_appendRight {pat a : String} (b : String)
    (h : containsText pat a) : containsText pat (a ++ b) := by
  unfold containsText at *
  rw [String.data_append]
  exact h.trans ⟨[], b.data, by simp⟩

theorem not_containsText_of_char {c : Char} {pat s : String}
    (hc : c ∈ pat.data) (hs : c ∉ s.data) : ¬ containsText pat s :=
  fun h => hs (h.subset hc)

theorem charFree_append {c : Char} {a b : String}
    (ha : charFree c a) (hb : charFree c b) : charFree c (a ++ b) := by
  unfold charFree at *
  rw [String.data_append]
  simp_all

theorem not_containsText_of_charFree {c : Char} {pat s : String}
    (hc : c ∈ pat.data) (hs : charFree c s) : ¬ containsText pat s :=
  not_containsText_of_char hc hs

theorem infix_pair_iff_hasPair (c₁ c₂ : Char) (l : List Char) :
    [c₁, c₂] <:+: l ↔ hasPair c₁ c₂ l = true := by
  induction l with
  | nil => simp [hasPair]
  | cons c cs ih =>
    cases cs with
    | nil =>
      simp only [hasPair, List.infix_cons_iff]
      constructor
      · rintro (h | h)
        · have := h.length_le; simp at this
        · simp at h
      · simp
    | cons d ds =>
      rw [List.infix_cons_iff, ih]
      simp only [hasPair, Bool.or_eq_true, Bool.and_eq_true, beq_iff_eq,
        List.cons_prefix_cons, List.nil_prefix, and_true]
      constructor
      · rintro (⟨h1, h2⟩ | h)
        · exact Or.inl ⟨h1.symm, h2.symm⟩
        · exact Or.inr h
      · rintro (⟨h1, h2⟩ | h)
        · exact Or.inl ⟨h1.symm, h2.symm⟩
        · exact Or.inr h

theorem getLast?_mem_of_some {l : List Char} {c : Char}
    (h : l.getLast? = some c) : c ∈ l := by
  induction l with
  | nil => simp at h
  | cons x xs ih =>
    cases xs with
    | nil => simp_all
    | cons y ys =>
      rw [List.getLast?_cons_cons] at h
      exact List.mem_cons_of_mem x (ih h)

theorem hasPair_append (c₁ c₂ : Char) (a b : List Char) :
    hasPair c₁ c₂ (a ++ b) = true ↔
      (hasPair c₁ c₂ a = true ∨ hasPair c₁ c₂ b = true ∨
        (a.getLast? = some c₁ ∧ b.head? = some c₂)) := by
  induction a with
  | nil => simp [hasPair]
  | cons x xs ih =>
    cases xs with
    | nil =>
      cases b with
      | nil => simp [hasPair]
      | cons y ys =>
        simp only [List.singleton_append, hasPair, Bool.or_eq_true, Bool.and_eq_true,
          beq_iff_eq, List.getLast?_singleton, List.head?_cons, Option.some.injEq]
        tauto
    | cons z zs =>
      have hcons : (x :: z :: zs) ++ b = x :: ((z :: zs) ++ b) := rfl
      rw [hcons]
      have hstep : hasPair c₁ c₂ (x :: ((z :: zs) ++ b)) =
          ((x == c₁ && z == c₂) || hasPair c₁ c₂ ((z :: zs) ++ b)) := rfl
      rw [hstep]
      simp only [Bool.or_eq_true, Bool.and_eq_true, beq_iff_eq, ih,
        List.getLast?_cons_cons, hasPair]
      tauto

theorem hasPair_eq_false_of_left_notMem {c₁ c₂ : Char} {l : List Char}
    (h : c₁ ∉ l) : hasPair c₁ c₂ l = false := by
  induction l with
  | nil => rfl
  | cons x xs ih =>
    cases xs with
    | nil => rfl
    | cons y ys =>
      have hx : x ≠ c₁ := fun he => h (he ▸ List.mem_cons_self x _)
      have hy : c₁ ∉ y :: ys := fun hm => h (List.mem_cons_of_mem x hm)
      have := ih hy
      simp only [hasPair, Bool.or_eq_false_iff, Bool.and_eq_false_iff]
      exact ⟨Or.inl (by simp [hx]), this⟩

theorem pairFree_append {c₁ c₂ : Char} {a b : String}
    (ha : pairFree c₁ c₂ a) (hb : pairFree c₁ c₂ b)
    (hedge : a.data.getLast? = some c₁ → b.data.head? = some c₂ → False) :
    pairFree c₁ c₂ (a ++ b) := by
  unfold pairFree at *
  rw [String.data_append]
  rcases h : hasPair c₁ c₂ (a.data ++ b.data) with _ | _
  · rfl
  · exfalso
    rcases (hasPair_append c₁ c₂ a.data b.data).mp h with h1 | h2 | ⟨h3, h4⟩
    · rw [ha] at h1; exact Bool.false_ne_true h1
    · rw [hb] at h2; exact Bool.false_ne_true h2
    · exact hedge h3 h4

theorem not_containsText_of_pairFree {c₁ c₂ : Char} {pat s : String}
    (hp : [c₁, c₂] <:+: pat.data) (hs : pairFree c₁ c₂ s) : ¬ containsText pat s := by
  intro h
  have := (infix_pair_iff_hasPair c₁ c₂ s.data).mp (hp.trans h)
  unfold pairFree at hs
  rw [hs] at this
  exact Bool.false_ne_true this

theorem strCharsIn_append {s t : String} {cs : List Char}
    (hs : strCharsIn s cs) (ht : strCharsIn t cs) : strCharsIn (s ++ t) cs := by
  intro c hc
  rw [String.data_append] at hc
  rcases List.mem_append.mp hc with h | h
  · exact hs c h
  · exact ht c h

theorem strCharsIn_mono {s : String} {cs ds : List Char}
    (hs : strCharsIn s cs) (h : ∀ c ∈ cs, c ∈ ds) : strCharsIn s ds :=
  fun c hc => h c (hs c hc)

theorem charFree_of_strCharsIn {s : String} {cs : List Char} {c : Char}
    (hs : strCharsIn s cs) (hc : c ∉ cs) : charFree c s :=
  fun hm => hc (hs c hm)

theorem catalog_text_ok : ∀ e ∈ dashboardColumnDefinitions,
    strCharsIn e.clickhouseSelect filterTextChars ∧
    strCharsIn e.clickhouseTableName filterTextChars ∧
    strCharsIn e.chType filterTextChars := by decide

theorem operators_text_ok : ∀ s ∈ chOperators, strCharsIn s filterTextChars := by decide

theorem digitChar_mem_digitChars {n : Nat} (h : n < 10) : Nat.digitChar n ∈ digitChars := by
  interval_cases n <;> decide

theorem decRepAux_chars (fuel : Nat) : ∀ (n : Nat), ∀ c ∈ decRepAux fuel n, c ∈ digitChars := by
  induction fuel with
  | zero => intro n c hc; simp [decRepAux] at hc
  | succ fuel ih =>
    intro n c hc
    unfold decRepAux at hc
    by_cases h : n < 10
    · rw [if_pos h] at hc
      rw [List.mem_singleton] at hc
      subst hc
      exact digitChar_mem_digitChars h
    · rw [if_neg h] at hc
      rcases List.mem_append.mp hc with hc | hc
      · exact ih _ c hc
      · rw [List.mem_singleton] at hc
        subst hc
        exact digitChar_mem_digitChars (Nat.mod_lt _ (by decide))

theorem decRep_chars (n : Nat) : strCharsIn (decRep n) digitChars :=
  decRepAux_chars (n + 1) n

theorem digit_sub_filterText : ∀ c ∈ digitChars, c ∈ filterTextChars := by decide

theorem filterText_sub_allowed : ∀ c ∈ filterTextChars, c ∈ allowedChars :=
  fun _ hc => List.mem_append_left _ hc

theorem phName_chars {f : ChFilter} (hf : validFilter f) (i : Nat) :
    strCharsIn (phName f i) filterTextChars := by
  have hfield := (catalog_text_ok _ hf.1).1
  have hu : strCharsIn "_" filterTextChars := by decide
  have hd := strCharsIn_mono (decRep_chars i) digit_sub_filterText
  exact strCharsIn_append (strCharsIn_append hfield hu) hd

theorem renderFilter_chars {f : ChFilter} (hf : validFilter f) (i : Nat) :
    strCharsIn (renderFilter f i) allowedChars := by
  obtain ⟨hcat, hop⟩ := hf
  have htab := strCharsIn_mono (catalog_text_ok _ hcat).2.1 filterText_sub_allowed
  have hfield := strCharsIn_mono (catalog_text_ok _ hcat).1 filterText_sub_allowed
  have hty := strCharsIn_mono (catalog_text_ok _ hcat).2.2 filterText_sub_allowed
  have hopc := strCharsIn_mono (operators_text_ok _ hop) filterText_sub_allowed
  have hph := strCharsIn_mono (phName_chars ⟨hcat, hop⟩ i) filterText_sub_allowed
  have h1 : strCharsIn "." allowedChars := by decide
  have h2 : strCharsIn " " allowedChars := by decide
  have h3 : strCharsIn " \x7b" allowedChars := by decide
  have h4 : strCharsIn ": " allowedChars := by decide
  have h5 : strCharsIn "\x7d" allowedChars := by decide
  unfold renderFilter
  exact strCharsIn_append (strCharsIn_append (strCharsIn_append (strCharsIn_append
    (strCharsIn_append (strCharsIn_append (strCharsIn_append (strCharsIn_append
      (strCharsIn_append htab h1) hfield) h2) hopc) h3) hph) h4) hty) h5

theorem conjoin_renderList_chars :
    ∀ (fl : List ChFilter) (i : Nat), validList fl →
      strCharsIn (conjoin (renderList i fl)) allowedChars := by
  intro fl
  induction fl with
  | nil =>
    intro i _
    show strCharsIn "1=1" allowedChars
    decide
  | cons f fs ih =>
    intro i hv
    have hf : validFilter f := hv f (List.mem_cons_self f fs)
    have hfs : validList fs := fun g hg => hv g (List.mem_cons_of_mem f hg)
    cases fs with
    | nil =>
      show strCharsIn (conjoin [renderFilter f i]) allowedChars
      exact renderFilter_chars hf i
    | cons f2 fs2 =>
      show strCharsIn (renderFilter f i ++ " AND " ++
        conjoin (renderList (i + 1) (f2 :: fs2))) allowedChars
      have hsep : strCharsIn " AND " allowedChars := by decide
      exact strCharsIn_append
        (strCharsIn_append (renderFilter_chars hf i) hsep) (ih (i + 1) hfs)

theorem applyQuery_chars {fl : List ChFilter} (h : validList fl) :
    strCharsIn (FilterList.apply fl).query allowedChars :=
  conjoin_renderList_chars fl 0 h

theorem applyQuery_charFree {fl : List ChFilter} (h : validList fl) {c : Char}
    (hc : c ∉ allowedChars) : charFree c (FilterList.apply fl).query :=
  charFree_of_strCharsIn (applyQuery_chars h) hc

theorem applyQuery_pairFree {fl : List ChFilter} (h : validList fl) {c₁ c₂ : Char}
    (hc : c₁ ∉ allowedChars) : pairFree c₁ c₂ (FilterList.apply fl).query :=
  hasPair_eq_false_of_left_notMem (applyQuery_charFree h hc)

theorem applyQuery_getLast_ne {fl : List ChFilter} (h : validList fl) {c : Char}
    (hc : c ∉ allowedChars) : (FilterList.apply fl).query.data.getLast? ≠ some c :=
  fun he => applyQuery_charFree h hc (getLast?_mem_of_some he)

theorem scanPH_append (a b : List Char) (st : Option (List Char)) :
    scanPH (a ++ b) st = scanPH a st ++ scanPH b (phState a st) := by
  induction a generalizing st with
  | nil => simp [scanPH, phState]
  | cons c cs ih =>
    cases st with
    | none =>
      by_cases h : c = '\x7b' <;> simp [scanPH, phState, h, ih]
    | some acc =>
      by_cases h : c = ':' <;> simp [scanPH, phState, h, ih]

theorem phState_append (a b : List Char) (st : Option (List Char)) :
    phState (a ++ b) st = phState b (phState a st) := by
  induction a generalizing st with
  | nil => simp [phState]
  | cons c cs ih =>
    cases st with
    | none => simp [phState, ih]
    | some acc => simp [phState, ih]

theorem scanPH_of_no_brace {a : List Char} (h : '\x7b' ∉ a) :
    scanPH a none = [] ∧ phState a none = none := by
  induction a with
  | nil => exact ⟨rfl, rfl⟩
  | cons c cs ih =>
    have hc : c ≠ '\x7b' := fun he => h (he ▸ List.mem_cons_self c cs)
    have hcs : '\x7b' ∉ cs := fun hm => h (List.mem_cons_of_mem c hm)
    simpa [scanPH, phState, hc] using ih hcs

theorem scanPH_name {nm : List Char} (h : ':' ∉ nm) (rest : List Char) :
    ∀ acc : List Char,
      scanPH (nm ++ ':' :: rest) (some acc) = String.mk (acc ++ nm) :: scanPH rest none ∧
      phState (nm ++ ':' :: rest) (some acc) = phState rest none := by
  induction nm with
  | nil => intro acc; simp [scanPH, phState]
  | cons c cs ih =>
    intro acc
    have hc : c ≠ ':' := fun he => h (he ▸ List.mem_cons_self c cs)
    have hcs : ':' ∉ cs := fun hm => h (List.mem_cons_of_mem c hm)
    have := (ih hcs) (acc ++ [c])
    simpa [scanPH, phState, hc, List.append_assoc] using this

theorem renderFilter_scan {f : ChFilter} (hf : validFilter f) (i : Nat) :
    scanPH (renderFilter f i).data none = [phName f i] ∧
    phState (renderFilter f i).data none = none := by
  have hnb : ('\x7b' : Char) ∉ filterTextChars := by decide
  have htab : charFree '\x7b' f.clickhouseTable :=
    charFree_of_strCharsIn (catalog_text_ok _ hf.1).2.1 hnb
  have hfield : charFree '\x7b' f.field :=
    charFree_of_strCharsIn (catalog_text_ok _ hf.1).1 hnb
  have hty : charFree '\x7b' f.chType :=
    charFree_of_strCharsIn (catalog_text_ok _ hf.1).2.2 hnb
  have hop : charFree '\x7b' f.operator :=
    charFree_of_strCharsIn (operators_text_ok _ hf.2) hnb
  have hdot : charFree '\x7b' "." := by decide
  have hsp : charFree '\x7b' " " := by decide
  have hrb : charFree '\x7b' "\x7d" := by decide
  have hpre : charFree '\x7b' (f.clickhouseTable ++ "." ++ f.field ++ " " ++ f.operator ++ " ") :=
    charFree_append (charFree_append (charFree_append (charFree_append
      (charFree_append htab hdot) hfield) hsp) hop) hsp
  have hname : charFree ':' (phName f i) :=
    charFree_of_strCharsIn (phName_chars hf i) (by decide)
  have hpost : charFree '\x7b' (" " ++ f.chType ++ "\x7d") :=
    charFree_append (charFree_append hsp hty) hrb
  have e1 : " \x7b".data = [' ', '\x7b'] := rfl
  have e2 : ": ".data = [':', ' '] := rfl
  have e3 : " ".data = [' '] := rfl
  have hdata : (renderFilter f i).data =
      (f.clickhouseTable ++ "." ++ f.field ++ " " ++ f.operator ++ " ").data ++
        '\x7b' :: ((phName f i).data ++ ':' :: (" " ++ f.chType ++ "\x7d").data) := by
    simp [renderFilter, String.data_append, e1, e2, e3]
  have hpre2 := @scanPH_of_no_brace ((f.clickhouseTable ++ "." ++ f.field ++ " " ++
    f.operator ++ " ").data) hpre
  have hpost2 := @scanPH_of_no_brace ((" " ++ f.chType ++ "\x7d").data) hpost
  have hnm := @scanPH_name ((phName f i).data) hname
    ((" " ++ f.chType ++ "\x7d").data) []
  constructor
  · rw [hdata, scanPH_append, hpre2.1, hpre2.2]
    show scanPH ((phName f i).data ++ ':' :: (" " ++ f.chType ++ "\x7d").data) (some []) = _
    rw [hnm.1, hpost2.1]
    simp
  · rw [hdata, phState_append, hpre2.2]
    show phState ((phName f i).data ++ ':' :: (" " ++ f.chType ++ "\x7d").data) (some []) = _
    rw [hnm.2, hpost2.2]

theorem conjoin_scan :
    ∀ (fl : List ChFilter) (i : Nat), validList fl →
      scanPH (conjoin (renderList i fl)).data none = keysOf (paramsList i fl) ∧
      phState (conjoin (renderList i fl)).data none = none := by
  intro fl
  induction fl with
  | nil =>
    intro i _
    show scanPH ("1=1").data none = keysOf [] ∧ phState ("1=1").data none = none
    exact ⟨by decide, by decide⟩
  | cons f fs ih =>
    intro i hv
    have hf : validFilter f := hv f (List.mem_cons_self f fs)
    have hfs : validList fs := fun g hg => hv g (List.mem_cons_of_mem f hg)
    have hfr := renderFilter_scan hf i
    cases fs with
    | nil =>
      show scanPH (renderFilter f i).data none = [phName f i] ∧
        phState (renderFilter f i).data none = none
      exact hfr
    | cons f2 fs2 =>
      have hsep := @scanPH_of_no_brace (" AND ".data) (by decide)
      have hrest := ih (i + 1) hfs
      constructor
      · show scanPH (renderFilter f i ++ " AND " ++
          conjoin (renderList (i + 1) (f2 :: fs2))).data none = _
        rw [String.data_append, String.data_append, scanPH_append, scanPH_append,
          phState_append, hfr.1, hfr.2, hsep.1, hsep.2, hrest.1]
        simp [keysOf, paramsList]
      · show phState (renderFilter f i ++ " AND " ++
          conjoin (renderList (i + 1) (f2 :: fs2))).data none = none
        rw [String.data_append, String.data_append, phState_append, phState_append,
          hfr.2, hsep.2, hrest.2]

theorem apply_extract {fl : List ChFilter} (h : validList fl) :
    extractPH (FilterList.apply fl).query = keysOf (FilterList.apply fl).params :=
  (conjoin_scan fl 0 h).1

theorem apply_balanced {fl : List ChFilter} (h : validList fl) :
    phState (FilterList.apply fl).query.data none = none :=
  (conjoin_scan fl 0 h).2

theorem mem_keysOf_objSet {m : List (String × String)} {k v x : String} :
    x ∈ keysOf (objSet m k v) ↔ x ∈ keysOf m ∨ x = k := by
  unfold objSet keysOf
  by_cases h : m.any (fun p => p.1 == k)
  · rw [if_pos h]
    rw [List.any_eq_true] at h
    obtain ⟨p0, hp0, hp0k⟩ := h
    rw [beq_iff_eq] at hp0k
    simp only [List.map_map, List.mem_map, Function.comp_apply, apply_ite Prod.fst]
    constructor
    · rintro ⟨p, hp, he⟩
      by_cases hk : p.1 == k
      · rw [if_pos hk] at he
        exact Or.inr he.symm
      · rw [if_neg hk] at he
        exact Or.inl ⟨p, hp, he⟩
    · rintro (⟨p, hp, he⟩ | he)
      · by_cases hk : p.1 == k
        · refine ⟨p0, hp0, ?_⟩
          rw [if_pos (show (p0.1 == k) = true by rw [beq_iff_eq]; exact hp0k)]
          rw [beq_iff_eq] at hk
          rw [← hk]
          exact he
        · exact ⟨p, hp, by rw [if_neg hk]; exact he⟩
      · rw [he]
        exact ⟨p0, hp0, by
          rw [if_pos (show (p0.1 == k) = true by rw [beq_iff_eq]; exact hp0k)]⟩
  · rw [if_neg h]
    simp [List.mem_append]

theorem mem_keysOf_objSpread {ps : List (String × String)} :
    ∀ (m : List (String × String)) (x : String),
      x ∈ keysOf (objSpread m ps) ↔ x ∈ keysOf m ∨ x ∈ keysOf ps := by
  induction ps with
  | nil => intro m x; simp [objSpread, keysOf]
  | cons p ps' ih =>
    intro m x
    show x ∈ keysOf (objSpread (objSet m p.1 p.2) ps') ↔ _
    rw [ih, mem_keysOf_objSet]
    simp only [keysOf, List.map_cons, List.mem_cons]
    tauto

theorem lookupKey_objSet_self (m : List (String × String)) (k v : String) :
    lookupKey (objSet m k v) k = some v := by
  induction m with
  | nil => simp [objSet, lookupKey]
  | cons p m' ih =>
    by_cases hpk : p.1 == k
    · have hany : (p :: m').any (fun q => q.1 == k) = true := by
        simp only [List.any_cons, Bool.or_eq_true]
        exact Or.inl hpk
      unfold objSet
      rw [if_pos hany, List.map_cons, if_pos hpk]
      unfold lookupKey
      rw [@List.find?_cons_of_pos _ (fun q => q.1 == k) (k, v) _
        (show (((k, v).1 == k) = true) by simp)]
      rfl
    · unfold objSet at ih ⊢
      by_cases hany' : m'.any (fun q => q.1 == k)
      · have hany : (p :: m').any (fun q => q.1 == k) = true := by
          simp only [List.any_cons, Bool.or_eq_true]
          exact Or.inr hany'
        rw [if_pos hany, List.map_cons, if_neg hpk]
        rw [if_pos hany'] at ih
        unfold lookupKey at ih ⊢
        rw [@List.find?_cons_of_neg _ (fun q => q.1 == k) p _ hpk]
        exact ih
      · have hany : ¬ ((p :: m').any (fun q => q.1 == k) = true) := by
          simp only [List.any_cons, Bool.or_eq_true]
          rintro (hc | hc)
          · exact hpk hc
          · exact hany' hc
        rw [if_neg hany, List.cons_append]
        rw [if_neg hany'] at ih
        unfold lookupKey at ih ⊢
        rw [@List.find?_cons_of_neg _ (fun q => q.1 == k) p _ hpk]
        exact ih

theorem lookupKey_map_objSet {k' k v : String} (hkk : k' ≠ k) (m : List (String × String)) :
    lookupKey (m.map (fun p => if p.1 == k' then (k', v) else p)) k = lookupKey m k := by
  induction m with
  | nil => rfl
  | cons p m' ih =>
    rw [List.map_cons]
    by_cases hp : p.1 == k'
    · rw [if_pos hp]
      rw [beq_iff_eq] at hp
      unfold lookupKey at ih ⊢
      rw [@List.find?_cons_of_neg _ (fun r => r.1 == k) (k', v) _
          (show ¬ (((k', v).1 == k) = true) by simp [hkk]),
        @List.find?_cons_of_neg _ (fun r => r.1 == k) p _
          (show ¬ ((p.1 == k) = true) by simp [hp, hkk])]
      exact ih
    · rw [if_neg hp]
      by_cases hp2 : (p.1 == k)
      · unfold lookupKey
        rw [@List.find?_cons_of_pos _ (fun r => r.1 == k) p _ hp2,
          @List.find?_cons_of_pos _ (fun r => r.1 == k) p _ hp2]
      · unfold lookupKey at ih ⊢
        rw [@List.find?_cons_of_neg _ (fun r => r.1 == k) p _ hp2,
          @List.find?_cons_of_neg _ (fun r => r.1 == k) p _ hp2]
        exact ih

theorem lookupKey_objSet_other {k' : String} (m : List (String × String)) (k v : String)
    (hkk : k' ≠ k) : lookupKey (objSet m k' v) k = lookupKey m k := by
  unfold objSet
  by_cases hany : m.any (fun q => q.1 == k')
  · rw [if_pos hany]
    exact lookupKey_map_objSet hkk m
  · rw [if_neg hany]
    unfold lookupKey
    rw [List.find?_append]
    have h1 : List.find? (fun p => p.1 == k) [(k', v)] = none := by
      rw [@List.find?_cons_of_neg _ (fun r => r.1 == k) (k', v) []
          (show ¬ (((k', v).1 == k) = true) by simp [hkk]), List.find?_nil]
    rw [h1, Option.or_none]

theorem lookupKey_objSpread_of_not_mem {k : String} :
    ∀ (ps : List (String × String)), (∀ p ∈ ps, p.1 ≠ k) →
      ∀ (m : List (String × String)), lookupKey (objSpread m ps) k = lookupKey m k := by
  intro ps
  induction ps with
  | nil => intro _ m; rfl
  | cons p ps' ih =>
    intro h m
    show lookupKey (objSpread (objSet m p.1 p.2) ps') k = _
    rw [ih (fun q hq => h q (List.mem_cons_of_mem p hq)) _,
      lookupKey_objSet_other _ _ _ (h p (List.mem_cons_self p ps'))]

theorem lookupKey_objSpread_last {k : String} {q : String × String} :
    ∀ (ps : List (String × String)),
      ps.reverse.find? (fun p => p.1 == k) = some q →
      ∀ (m : List (String × String)), lookupKey (objSpread m ps) k = some q.2 := by
  intro ps
  induction ps with
  | nil => intro h; simp at h
  | cons p ps' ih =>
    intro h m
    rw [List.reverse_cons, List.find?_append] at h
    show lookupKey (objSpread (objSet m p.1 p.2) ps') k = some q.2
    cases hf : ps'.reverse.find? (fun r => r.1 == k) with
    | some q' =>
      rw [hf] at h
      have hq : q' = q := Option.some.inj h
      subst hq
      exact ih hf (objSet m p.1 p.2)
    | none =>
      rw [hf] at h
      have h2 : List.find? (fun r => r.1 == k) [p] = some q := h
      have hnone : ∀ r ∈ ps', r.1 ≠ k := by
        intro r hr he
        have := List.find?_eq_none.mp hf r (by rw [List.mem_reverse]; exact hr)
        simp [he] at this
      rw [lookupKey_objSpread_of_not_mem ps' hnone]
      cases hp : (p.1 == k) with
      | true =>
        rw [@List.find?_cons_of_pos _ (fun r => r.1 == k) p [] hp] at h2
        have hpq : p = q := Option.some.inj h2
        rw [beq_iff_eq] at hp
        rw [← hpq, ← hp]
        exact lookupKey_objSet_self m p.1 p.2
      | false =>
        rw [@List.find?_cons_of_neg _ (fun r => r.1 == k) p [] (by simp [hp]),
          List.find?_nil] at h2
        cases h2

theorem selectTimeseriesColumn_default {g : String} (h : g ∉ dateTruncValues)
    (col outName : String) : selectTimeseriesColumn g col outName = none := by
  unfold selectTimeseriesColumn
  split
  all_goals first
    | rfl
    | exact absurd (by simp [dateTruncValues]) h

theorem orderByTimeSeries_default {g : String} (h : g ∉ dateTruncValues)
    (col : String) : orderByTimeSeries g col = none := by
  unfold orderByTimeSeries
  split
  all_goals first
    | rfl
    | exact absurd (by simp [dateTruncValues]) h

/-- C4: for each of the six supported granularities, `selectTimeseriesColumn`
returns the period-start truncation `toStartOf<Unit>(col)` aliased to the
requested output name and `orderByTimeSeries` returns an ascending `ORDER BY`
on the column with a gap-fill directive stepping by exactly one unit
(`toInterval<Unit>(1)`); any granularity outside the six yields `none`
(JS `undefined`) from both helpers. -/
theorem claim_C4_time_bucketing (col outName g : String) (hg : g ∉ dateTruncValues) :
    (selectTimeseriesColumn "year" col outName =
        some ("toStartOfYear(" ++ col ++ ") as " ++ outName) ∧
      selectTimeseriesColumn "month" col outName =
        some ("toStartOfMonth(" ++ col ++ ") as " ++ outName) ∧
      selectTimeseriesColumn "week" col outName =
        some ("toStartOfWeek(" ++ col ++ ") as " ++ outName) ∧
      selectTimeseriesColumn "day" col outName =
        some ("toStartOfDay(" ++ col ++ ") as " ++ outName) ∧
      selectTimeseriesColumn "hour" col outName =
        some ("toStartOfHour(" ++ col ++ ") as " ++ outName) ∧
      selectTimeseriesColumn "minute" col outName =
        some ("toStartOfMinute(" ++ col ++ ") as " ++ outName)) ∧
    (orderByTimeSeries "year" col =
        some ("ORDER BY " ++ col ++ " ASC WITH FILL STEP toIntervalYear(1)") ∧
      orderByTimeSeries "month" col =
        some ("ORDER BY " ++ col ++ " ASC WITH FILL STEP toIntervalMonth(1)") ∧
      orderByTimeSeries "week" col =
        some ("ORDER BY " ++ col ++ " ASC WITH FILL STEP toIntervalWeek(1)") ∧
      orderByTimeSeries "day" col =
        some ("ORDER BY " ++ col ++ " ASC WITH FILL STEP toIntervalDay(1)") ∧
      orderByTimeSeries "hour" col =
        some ("ORDER BY " ++ col ++ " ASC WITH FILL STEP toIntervalHour(1)") ∧
      orderByTimeSeries "minute" col =
        some ("ORDER BY " ++ col ++ " ASC WITH FILL STEP toIntervalMinute(1)")) ∧
    selectTimeseriesColumn g col outName = none ∧
    orderByTimeSeries g col = none :=
  ⟨⟨rfl, rfl, rfl, rfl, rfl, rfl⟩, ⟨rfl, rfl, rfl, rfl, rfl, rfl⟩,
    selectTimeseriesColumn_default hg col outName, orderByTimeSeries_default hg col⟩

/-- Witness for C4 at a concrete column, alias and out-of-range granularity. -/
theorem claim_C4_witness :
    "quarter" ∉ dateTruncValues ∧
    ((selectTimeseriesColumn "year" "timestamp" "ts" =
        some ("toStartOfYear(" ++ "timestamp" ++ ") as " ++ "ts") ∧
      selectTimeseriesColumn "month" "timestamp" "ts" =
        some ("toStartOfMonth(" ++ "timestamp" ++ ") as " ++ "ts") ∧
      selectTimeseriesColumn "week" "timestamp" "ts" =
        some ("toStartOfWeek(" ++ "timestamp" ++ ") as " ++ "ts") ∧
      selectTimeseriesColumn "day" "timestamp" "ts" =
        some ("toStartOfDay(" ++ "timestamp" ++ ") as " ++ "ts") ∧
      selectTimeseriesColumn "hour" "timestamp" "ts" =
        some ("toStartOfHour(" ++ "timestamp" ++ ") as " ++ "ts") ∧
      selectTimeseriesColumn "minute" "timestamp" "ts" =
        some ("toStartOfMinute(" ++ "timestamp" ++ ") as " ++ "ts")) ∧
    (orderByTimeSeries "year" "timestamp" =
        some ("ORDER BY " ++ "timestamp" ++ " ASC WITH FILL STEP toIntervalYear(1)") ∧
      orderByTimeSeries "month" "timestamp" =
        some ("ORDER BY " ++ "timestamp" ++ " ASC WITH FILL STEP toIntervalMonth(1)") ∧
      orderByTimeSeries "week" "timestamp" =
        some ("ORDER BY " ++ "timestamp" ++ " ASC WITH FILL STEP toIntervalWeek(1)") ∧
      orderByTimeSeries "day" "timestamp" =
        some ("ORDER BY " ++ "timestamp" ++ " ASC WITH FILL STEP toIntervalDay(1)") ∧
      orderByTimeSeries "hour" "timestamp" =
        some ("ORDER BY " ++ "timestamp" ++ " ASC WITH FILL STEP toIntervalHour(1)") ∧
      orderByTimeSeries "minute" "timestamp" =
        some ("ORDER BY " ++ "timestamp" ++ " ASC WITH FILL STEP toIntervalMinute(1)")) ∧
    selectTimeseriesColumn "quarter" "timestamp" "ts" = none ∧
    orderByTimeSeries "quarter" "timestamp" = none) :=
  ⟨by decide, claim_C4_time_bucketing "timestamp" "ts" "quarter" (by decide)⟩

/-- C5: `getTotalTraces` returns the sentinel `none` (JS `undefined`) exactly
when the store yields zero rows, and a non-empty typed singleton
`[\x7bcountTraceId\x7d]` built from the first row otherwise; the function is
total, so an absent result set never raises. -/
theorem claim_C5_total_traces_sentinel
    (store : String → List (String × String) → List TraceCountRow)
    (projectId : String) (filter : List ChFilter) :
    (getTotalTraces store projectId filter = none ↔
      store (getTotalTracesCall projectId filter).query
        (getTotalTracesCall projectId filter).params = []) ∧
    (∀ (r : TraceCountRow) (rest : List TraceCountRow),
      store (getTotalTracesCall projectId filter).query
        (getTotalTracesCall projectId filter).params = r :: rest →
      getTotalTraces store projectId filter = some [{ countTraceId := r.count }]) := by
  have he : getTotalTraces store projectId filter =
      match store (getTotalTracesCall projectId filter).query
        (getTotalTracesCall projectId filter).params with
      | [] => none
      | r :: _ => some [{ countTraceId := r.count }] := rfl
  cases h : store (getTotalTracesCall projectId filter).query
      (getTotalTracesCall projectId filter).params with
  | nil =>
    rw [he, h]
    simp
  | cons a l =>
    rw [he, h]
    constructor
    · simp
    · intro r rest hr
      injection hr with h1 _
      rw [h1]

/-- Witness for C5 at concrete stores: one returning a single row with count
5, one returning no rows. -/
theorem claim_C5_witness :
    getTotalTraces (fun _ _ => [{ count := 5 }]) "proj1" [] = some [{ countTraceId := 5 }] ∧
    getTotalTraces (fun _ _ => []) "proj1" [] = none :=
  ⟨(claim_C5_total_traces_sentinel (fun _ _ => [{ count := 5 }]) "proj1" []).2
      { count := 5 } [] rfl,
    (claim_C5_total_traces_sentinel (fun _ _ => []) "proj1" []).1.mpr rfl⟩

/-- C9: every metric template builds the parameter map handed to the store by
spreading the compiled filter parameters after the `projectId` key
(`\x7b projectId, ...filterParams \x7d`, with the per-template extra time
parameter spread last where present); consequently a compiled parameter whose
key is `projectId` overwrites the caller-supplied project identifier in the
executed call (the last such binding wins, per JS spread semantics). -/
theorem claim_C9_spread_override (pid : String) (fl : List ChFilter) (gb : String)
    (ps : List (String × String)) (q : String × String)
    (hq : ps.reverse.find? (fun p => p.1 == "projectId") = some q) :
    ((getTotalTracesCall pid fl).params =
        objSpread [("projectId", pid)] (FilterList.apply fl).params ∧
      (getObservationsCostGroupedByNameCall pid fl).params =
        objSpread [("projectId", pid)] (FilterList.apply fl).params ∧
      (groupTracesByTimeCall pid fl gb).params =
        objSpread [("projectId", pid)] (FilterList.apply fl).params ∧
      (getObservationUsageByTimeCall pid fl gb).params =
        objSpread [("projectId", pid)] (FilterList.apply fl).params ∧
      (getDistinctModelsCall pid fl).params =
        objSpread [("projectId", pid)] (FilterList.apply fl).params ∧
      (getScoreAggregateCall pid fl).params =
        objSpread (objSpread [("projectId", pid)] (FilterList.apply fl).params)
          (match fl.find? (fun f =>
              f.field == "timestamp" && (f.operator == ">=" || f.operator == ">")) with
            | some tf => [("tracesTimestamp", convertDateToClickhouseDateTime tf.value)]
            | none => []) ∧
      (getModelUsageByUserCall pid fl).params =
        objSpread (objSpread [("projectId", pid)] (FilterList.apply fl).params)
          (match fl.find? (fun f =>
              f.clickhouseTable == "observations" && (f.field == "start_time" &&
                (f.operator == ">=" || f.operator == ">"))) with
            | some tf => [("tractTimestamp", tf.value)]
            | none => [])) ∧
    lookupKey (objSpread [("projectId", pid)] ps) "projectId" = some q.2 :=
  ⟨⟨rfl, rfl, rfl, rfl, rfl, rfl, rfl⟩, lookupKey_objSpread_last ps hq [("projectId", pid)]⟩

/-- Witness for C9: a compiled parameter list binding the key `projectId` to
a filter-derived value overrides the caller-supplied identifier. -/
theorem claim_C9_witness :
    ([("projectId", "fromFilter")] : List (String × String)).reverse.find?
        (fun p => p.1 == "projectId") = some ("projectId", "fromFilter") ∧
    lookupKey (objSpread [("projectId", "caller")] [("projectId", "fromFilter")])
      "projectId" = some "fromFilter" :=
  ⟨by decide,
    (claim_C9_spread_override "caller" [] "day" [("projectId", "fromFilter")]
      ("projectId", "fromFilter") (by decide)).2⟩

theorem containsText_self (s : String) : containsText s s := List.infix_refl _

theorem containsText_trans {p q s : String} (h1 : containsText p q)
    (h2 : containsText q s) : containsText p s := h1.trans h2

theorem containsText_AND_right (fq rest : String) :
    containsText ("AND " ++ fq) ("AND " ++ (fq ++ rest)) := by
  rw [← String.append_assoc]
  exact containsText_appendRight _ (containsText_self _)

theorem projectId_mem_spread (pid : String) (ps : List (String × String)) :
    "projectId" ∈ keysOf (objSpread [("projectId", pid)] ps) :=
  (mem_keysOf_objSpread _ _).mpr (Or.inl (by simp [keysOf]))

theorem projectId_mem_spread2 (pid : String) (ps extra : List (String × String)) :
    "projectId" ∈ keysOf (objSpread (objSpread [("projectId", pid)] ps) extra) :=
  (mem_keysOf_objSpread _ _).mpr (Or.inl (projectId_mem_spread pid ps))

theorem getTotalTracesCall_query (pid : String) (fl : List ChFilter) :
    (getTotalTracesCall pid fl).query =
      "\n    SELECT \n      count(id) as count \n    FROM traces t FINAL \n    WHERE project_id = \x7bprojectId: String\x7d\n    AND " ++
        (FilterList.apply fl).query := rfl

theorem getObservationsCostGroupedByNameCall_query (pid : String) (fl : List ChFilter) :
    (getObservationsCostGroupedByNameCall pid fl).query =
      "\n    SELECT \n      provided_model_name as name,\n      sumMap(cost_details)[\x27total\x27] as sum_cost_details,\n      sumMap(usage_details)[\x27total\x27] as sum_usage_details\n    FROM observations o FINAL " ++
        (if (fl.find? (fun f => f.clickhouseTable == "traces")).isSome then "LEFT JOIN traces t ON o.trace_id = t.id AND o.project_id = t.project_id" else "") ++
        "\n    WHERE project_id = \x7bprojectId: String\x7d\n    AND " ++ (FilterList.apply fl).query ++
        "\n    GROUP BY provided_model_name\n    ORDER BY sumMap(cost_details)[\x27total\x27] DESC\n    " := rfl

theorem getScoreAggregateCall_query (pid : String) (fl : List ChFilter) :
    (getScoreAggregateCall pid fl).query =
      "\n    SELECT \n      s.name,\n      count(*) as count,\n      avg(s.value) as avg_value,\n      s.source,\n      s.data_type\n    FROM scores s FINAL \n     " ++
        (if (fl.find? (fun f => f.clickhouseTable == "traces")).isSome then "JOIN traces t FINAL ON t.id = s.trace_id AND t.project_id = s.project_id" else "") ++
        "\n    WHERE s.project_id = \x7bprojectId: String\x7d\n    AND " ++ (FilterList.apply fl).query ++
        "\n    " ++
        (if (fl.find? (fun f =>
            f.field == "timestamp" && (f.operator == ">=" || f.operator == ">"))).isSome &&
            (fl.find? (fun f => f.clickhouseTable == "traces")).isSome then "AND t.timestamp >= \x7btracesTimestamp: DateTime\x7d - INTERVAL 1 HOUR" else "") ++
        "\n    GROUP BY s.name, s.source, s.data_type\n    ORDER BY count(*) DESC\n    " := rfl

theorem groupTracesByTimeCall_query (pid : String) (fl : List ChFilter) (gb : String) :
    (groupTracesByTimeCall pid fl gb).query =
      "\n    SELECT \n      " ++ jsInterp (selectTimeseriesColumn gb "timestamp" "timestamp") ++
        ",\n      count(*) as count\n    FROM traces t FINAL\n    WHERE project_id = \x7bprojectId: String\x7d\n    AND " ++
        (FilterList.apply fl).query ++ "\n    GROUP BY timestamp\n    " ++
        jsInterp (orderByTimeSeries gb "timestamp") ++ "\n    " := rfl

theorem getObservationUsageByTimeCall_query (pid : String) (fl : List ChFilter) (gb : String) :
    (getObservationUsageByTimeCall pid fl gb).query =
      "\n    SELECT \n      " ++ jsInterp (selectTimeseriesColumn gb "start_time" "start_time") ++
        ",\n      sumMap(usage_details)[\x27total\x27] as sum_usage_details,\n      sumMap(cost_details)[\x27total\x27] as sum_cost_details,\n      provided_model_name\n    FROM observations o FINAL\n    " ++
        (if (fl.find? (fun f => f.clickhouseTable == "traces")).isSome then "LEFT JOIN traces t ON o.trace_id = t.id AND o.project_id = t.project_id" else "") ++
        "\n    WHERE project_id = \x7bprojectId: String\x7d\n    AND " ++ (FilterList.apply fl).query ++
        "\n    GROUP BY start_time, provided_model_name\n    " ++
        jsInterp (orderByTimeSeries gb "start_time") ++ "\n    " := rfl

theorem getDistinctModelsCall_query (pid : String) (fl : List ChFilter) :
    (getDistinctModelsCall pid fl).query =
      "\n    SELECT \n      distinct(provided_model_name) as model\n    FROM observations o FINAL\n    " ++
        (if (fl.find? (fun f => f.clickhouseTable == "traces")).isSome then "LEFT JOIN traces t ON o.trace_id = t.id AND o.project_id = t.project_id" else "") ++
        "\n    WHERE project_id = \x7bprojectId: String\x7d\n    AND " ++ (FilterList.apply fl).query ++ "\n    " := rfl

theorem getModelUsageByUserCall_query (pid : String) (fl : List ChFilter) :
    (getModelUsageByUserCall pid fl).query =
      "\n    SELECT \n      sumMap(usage_details)[\x27total\x27] as sum_usage_details,\n      sumMap(cost_details)[\x27total\x27] as sum_cost_details,\n      user_id\n    FROM observations o FINAL\n      JOIN traces t ON o.trace_id = t.id AND o.project_id = t.project_id\n    WHERE project_id = \x7bprojectId: String\x7d\n    AND t.user_id IS NOT NULL\n    AND " ++
        (FilterList.apply fl).query ++ "\n    " ++
        (if (fl.find? (fun f =>
            f.clickhouseTable == "observations" && (f.field == "start_time" &&
              (f.operator == ">=" || f.operator == ">")))).isSome then "AND t.timestamp >= \x7btractTimestamp: DateTime\x7d - INTERVAL 1 HOUR" else "") ++
        "\n    GROUP BY user_id\n    " := rfl

/-- C8: every metric template scopes its query by the exact-match predicate
`project_id = \x7bprojectId: String\x7d` as the first conjunct of the `WHERE`
clause (qualified as `s.project_id` in the score template), conjoins the
compiled filter expression with `AND`, and binds the `projectId` key in the
parameter map. -/
theorem claim_C8_project_scoping (pid : String) (fl : List ChFilter) (gb : String) :
    (containsText "project_id = \x7bprojectId: String\x7d" (getTotalTracesCall pid fl).query ∧
      containsText "WHERE project_id = \x7bprojectId: String\x7d\n    AND " (getTotalTracesCall pid fl).query ∧
      containsText ("AND " ++ (FilterList.apply fl).query) (getTotalTracesCall pid fl).query ∧
      "projectId" ∈ keysOf (getTotalTracesCall pid fl).params) ∧
    (containsText "project_id = \x7bprojectId: String\x7d" (getObservationsCostGroupedByNameCall pid fl).query ∧
      containsText "WHERE project_id = \x7bprojectId: String\x7d\n    AND " (getObservationsCostGroupedByNameCall pid fl).query ∧
      containsText ("AND " ++ (FilterList.apply fl).query) (getObservationsCostGroupedByNameCall pid fl).query ∧
      "projectId" ∈ keysOf (getObservationsCostGroupedByNameCall pid fl).params) ∧
    (containsText "project_id = \x7bprojectId: String\x7d" (getScoreAggregateCall pid fl).query ∧
      containsText "WHERE s.project_id = \x7bprojectId: String\x7d\n    AND " (getScoreAggregateCall pid fl).query ∧
      containsText ("AND " ++ (FilterList.apply fl).query) (getScoreAggregateCall pid fl).query ∧
      "projectId" ∈ keysOf (getScoreAggregateCall pid fl).params) ∧
    (containsText "project_id = \x7bprojectId: String\x7d" (groupTracesByTimeCall pid fl gb).query ∧
      containsText "WHERE project_id = \x7bprojectId: String\x7d\n    AND " (groupTracesByTimeCall pid fl gb).query ∧
      containsText ("AND " ++ (FilterList.apply fl).query) (groupTracesByTimeCall pid fl gb).query ∧
      "projectId" ∈ keysOf (groupTracesByTimeCall pid fl gb).params) ∧
    (containsText "project_id = \x7bprojectId: String\x7d" (getObservationUsageByTimeCall pid fl gb).query ∧
      containsText "WHERE project_id = \x7bprojectId: String\x7d\n    AND " (getObservationUsageByTimeCall pid fl gb).query ∧
      containsText ("AND " ++ (FilterList.apply fl).query) (getObservationUsageByTimeCall pid fl gb).query ∧
      "projectId" ∈ keysOf (getObservationUsageByTimeCall pid fl gb).params) ∧
    (containsText "project_id = \x7bprojectId: String\x7d" (getDistinctModelsCall pid fl).query ∧
      containsText "WHERE project_id = \x7bprojectId: String\x7d\n    AND " (getDistinctModelsCall pid fl).query ∧
      containsText ("AND " ++ (FilterList.apply fl).query) (getDistinctModelsCall pid fl).query ∧
      "projectId" ∈ keysOf (getDistinctModelsCall pid fl).params) ∧
    (containsText "project_id = \x7bprojectId: String\x7d" (getModelUsageByUserCall pid fl).query ∧
      containsText "WHERE project_id = \x7bprojectId: String\x7d\n    AND " (getModelUsageByUserCall pid fl).query ∧
      containsText ("AND " ++ (FilterList.apply fl).query) (getModelUsageByUserCall pid fl).query ∧
      "projectId" ∈ keysOf (getModelUsageByUserCall pid fl).params) := by
  have hW1 : containsText "WHERE project_id = \x7bprojectId: String\x7d\n    AND "
      (getTotalTracesCall pid fl).query := by
    rw [getTotalTracesCall_query]
    apply containsText_appendRight
    decide
  have hA1 : containsText ("AND " ++ (FilterList.apply fl).query)
      (getTotalTracesCall pid fl).query := by
    rw [getTotalTracesCall_query,
      show ("\n    SELECT \n      count(id) as count \n    FROM traces t FINAL \n    WHERE project_id = \x7bprojectId: String\x7d\n    AND " : String) =
        "\n    SELECT \n      count(id) as count \n    FROM traces t FINAL \n    WHERE project_id = \x7bprojectId: String\x7d\n    " ++ "AND " from by decide,
      String.append_assoc]
    exact containsText_appendLeft _ (containsText_self _)
  have hW2 : containsText "WHERE project_id = \x7bprojectId: String\x7d\n    AND "
      (getObservationsCostGroupedByNameCall pid fl).query := by
    rw [getObservationsCostGroupedByNameCall_query]
    apply containsText_appendRight
    apply containsText_appendRight
    apply containsText_appendLeft
    decide
  have hA2 : containsText ("AND " ++ (FilterList.apply fl).query)
      (getObservationsCostGroupedByNameCall pid fl).query := by
    rw [getObservationsCostGroupedByNameCall_query,
      show ("\n    WHERE project_id = \x7bprojectId: String\x7d\n    AND " : String) =
        "\n    WHERE project_id = \x7bprojectId: String\x7d\n    " ++ "AND " from by decide]
    simp only [String.append_assoc]
    apply containsText_appendLeft
    apply containsText_appendLeft
    apply containsText_appendLeft
    exact containsText_AND_right _ _
  have hW3 : containsText "WHERE s.project_id = \x7bprojectId: String\x7d\n    AND "
      (getScoreAggregateCall pid fl).query := by
    rw [getScoreAggregateCall_query]
    apply containsText_appendRight
    apply containsText_appendRight
    apply containsText_appendRight
    apply containsText_appendRight
    apply containsText_appendLeft
    decide
  have hA3 : containsText ("AND " ++ (FilterList.apply fl).query)
      (getScoreAggregateCall pid fl).query := by
    rw [getScoreAggregateCall_query,
      show ("\n    WHERE s.project_id = \x7bprojectId: String\x7d\n    AND " : String) =
        "\n    WHERE s.project_id = \x7bprojectId: String\x7d\n    " ++ "AND " from by decide]
    simp only [String.append_assoc]
    apply containsText_appendLeft
    apply containsText_appendLeft
    apply containsText_appendLeft
    exact containsText_AND_right _ _
  have hW4 : containsText "WHERE project_id = \x7bprojectId: String\x7d\n    AND "
      (groupTracesByTimeCall pid fl gb).query := by
    rw [groupTracesByTimeCall_query]
    apply containsText_appendRight
    apply containsText_appendRight
    apply containsText_appendRight
    apply containsText_appendRight
    apply containsText_appendLeft
    decide
  have hA4 : containsText ("AND " ++ (FilterList.apply fl).query)
      (groupTracesByTimeCall pid fl gb).query := by
    rw [groupTracesByTimeCall_query,
      show (",\n      count(*) as count\n    FROM traces t FINAL\n    WHERE project_id = \x7bprojectId: String\x7d\n    AND " : String) =
        ",\n      count(*) as count\n    FROM traces t FINAL\n    WHERE project_id = \x7bprojectId: String\x7d\n    " ++ "AND " from by decide]
    simp only [String.append_assoc]
    apply containsText_appendLeft
    apply containsText_appendLeft
    apply containsText_appendLeft
    exact containsText_AND_right _ _
  have hW5 : containsText "WHERE project_id = \x7bprojectId: String\x7d\n    AND "
      (getObservationUsageByTimeCall pid fl gb).query := by
    rw [getObservationUsageByTimeCall_query]
    apply containsText_appendRight
    apply containsText_appendRight
    apply containsText_appendRight
    apply containsText_appendRight
    apply containsText_appendLeft
    decide
  have hA5 : containsText ("AND " ++ (FilterList.apply fl).query)
      (getObservationUsageByTimeCall pid fl gb).query := by
    rw [getObservationUsageByTimeCall_query,
      show ("\n    WHERE project_id = \x7bprojectId: String\x7d\n    AND " : String) =
        "\n    WHERE project_id = \x7bprojectId: String\x7d\n    " ++ "AND " from by decide]
    simp only [String.append_assoc]
    apply containsText_appendLeft
    apply containsText_appendLeft
    apply containsText_appendLeft
    apply containsText_appendLeft
    apply containsText_appendLeft
    exact containsText_AND_right _ _
  have hW6 : containsText "WHERE project_id = \x7bprojectId: String\x7d\n    AND "
      (getDistinctModelsCall pid fl).query := by
    rw [getDistinctModelsCall_query]
    apply containsText_appendRight
    apply containsText_appendRight
    apply containsText_appendLeft
    decide
  have hA6 : containsText ("AND " ++ (FilterList.apply fl).query)
      (getDistinctModelsCall pid fl).query := by
    rw [getDistinctModelsCall_query,
      show ("\n    WHERE project_id = \x7bprojectId: String\x7d\n    AND " : String) =
        "\n    WHERE project_id = \x7bprojectId: String\x7d\n    " ++ "AND " from by decide]
    simp only [String.append_assoc]
    apply containsText_appendLeft
    apply containsText_appendLeft
    apply containsText_appendLeft
    exact containsText_AND_right _ _
  have hW7 : containsText "WHERE project_id = \x7bprojectId: String\x7d\n    AND "
      (getModelUsageByUserCall pid fl).query := by
    rw [getModelUsageByUserCall_query]
    apply containsText_appendRight
    apply containsText_appendRight
    apply containsText_appendRight
    apply containsText_appendRight
    decide
  have hA7 : containsText ("AND " ++ (FilterList.apply fl).query)
      (getModelUsageByUserCall pid fl).query := by
    rw [getModelUsageByUserCall_query,
      show ("\n    SELECT \n      sumMap(usage_details)[\x27total\x27] as sum_usage_details,\n      sumMap(cost_details)[\x27total\x27] as sum_cost_details,\n      user_id\n    FROM observations o FINAL\n      JOIN traces t ON o.trace_id = t.id AND o.project_id = t.project_id\n    WHERE project_id = \x7bprojectId: String\x7d\n    AND t.user_id IS NOT NULL\n    AND " : String) =
        "\n    SELECT \n      sumMap(usage_details)[\x27total\x27] as sum_usage_details,\n      sumMap(cost_details)[\x27total\x27] as sum_cost_details,\n      user_id\n    FROM observations o FINAL\n      JOIN traces t ON o.trace_id = t.id AND o.project_id = t.project_id\n    WHERE project_id = \x7bprojectId: String\x7d\n    AND t.user_id IS NOT NULL\n    " ++ "AND " from by decide]
    simp only [String.append_assoc]
    apply containsText_appendLeft
    exact containsText_AND_right _ _
  have hP : ∀ s : String,
      containsText "WHERE project_id = \x7bprojectId: String\x7d\n    AND " s →
      containsText "project_id = \x7bprojectId: String\x7d" s :=
    fun s h => containsText_trans (by decide) h
  have hPs : ∀ s : String,
      containsText "WHERE s.project_id = \x7bprojectId: String\x7d\n    AND " s →
      containsText "project_id = \x7bprojectId: String\x7d" s :=
    fun s h => containsText_trans (by decide) h
  exact ⟨⟨hP _ hW1, hW1, hA1, projectId_mem_spread pid _⟩,
    ⟨hP _ hW2, hW2, hA2, projectId_mem_spread pid _⟩,
    ⟨hPs _ hW3, hW3, hA3, projectId_mem_spread2 pid _ _⟩,
    ⟨hP _ hW4, hW4, hA4, projectId_mem_spread pid _⟩,
    ⟨hP _ hW5, hW5, hA5, projectId_mem_spread pid _⟩,
    ⟨hP _ hW6, hW6, hA6, projectId_mem_spread pid _⟩,
    ⟨hP _ hW7, hW7, hA7, projectId_mem_spread2 pid _ _⟩⟩

theorem findTrace_isSome_iff (fl : List ChFilter) :
    (fl.find? (fun f => f.clickhouseTable == "traces")).isSome = true ↔
      ∃ f ∈ fl, f.clickhouseTable = "traces" := by
  rw [List.find?_isSome]
  simp only [beq_iff_eq]

theorem not_exists_trace_of_false {fl : List ChFilter}
    (hj : (fl.find? (fun f => f.clickhouseTable == "traces")).isSome = false) :
    ¬ ∃ f ∈ fl, f.clickhouseTable = "traces" := by
  intro he
  have := (findTrace_isSome_iff fl).mpr he
  rw [hj] at this
  exact Bool.false_ne_true this

theorem charFree_J_jsInterp_sel_traces (gb : String) :
    charFree 'J' (jsInterp (selectTimeseriesColumn gb "timestamp" "timestamp")) := by
  unfold selectTimeseriesColumn
  split <;> decide

theorem charFree_J_jsInterp_ord_traces (gb : String) :
    charFree 'J' (jsInterp (orderByTimeSeries gb "timestamp")) := by
  unfold orderByTimeSeries
  split <;> decide

theorem charFree_J_jsInterp_sel_obs (gb : String) :
    charFree 'J' (jsInterp (selectTimeseriesColumn gb "start_time" "start_time")) := by
  unfold selectTimeseriesColumn
  split <;> decide

theorem charFree_J_jsInterp_ord_obs (gb : String) :
    charFree 'J' (jsInterp (orderByTimeSeries gb "start_time")) := by
  unfold orderByTimeSeries
  split <;> decide

/-- C1 counterexample: `getModelUsageByUser` is observations-based, yet with
an empty filter list (no filter on table `traces`) its SQL still contains a
join clause referencing `traces` — the claimed equivalence fails for it. -/
theorem claim_C1_counterexample :
    containsText "JOIN traces" (getModelUsageByUserCall "proj1" []).query ∧
    ¬ ∃ f ∈ ([] : List ChFilter), f.clickhouseTable = "traces" := by
  constructor
  · rw [getModelUsageByUserCall_query]
    apply containsText_appendRight
    apply containsText_appendRight
    apply containsText_appendRight
    apply containsText_appendRight
    decide
  · simp

/-- C1 (amended): for the observations-based metrics that join `traces` only
on demand (`getObservationsCostGroupedByName`, `getObservationUsageByTime`,
`getDistinctModels`) the generated SQL contains a join clause referencing
`traces` iff the filter list contains a filter on table `traces`;
`getModelUsageByUser` instead always contains the traces join, regardless of
the filter list. -/
theorem claim_C1_join_elision (pid : String) (fl : List ChFilter) (gb : String)
    (hv : validList fl) :
    (containsText "JOIN traces" (getObservationsCostGroupedByNameCall pid fl).query ↔
      ∃ f ∈ fl, f.clickhouseTable = "traces") ∧
    (containsText "JOIN traces" (getObservationUsageByTimeCall pid fl gb).query ↔
      ∃ f ∈ fl, f.clickhouseTable = "traces") ∧
    (containsText "JOIN traces" (getDistinctModelsCall pid fl).query ↔
      ∃ f ∈ fl, f.clickhouseTable = "traces") ∧
    containsText "JOIN traces" (getModelUsageByUserCall pid fl).query := by
  have hfq := applyQuery_charFree hv (show ('J' : Char) ∉ allowedChars by decide)
  refine ⟨?_, ?_, ?_, ?_⟩
  · cases hj : (fl.find? (fun f => f.clickhouseTable == "traces")).isSome with
    | true =>
      refine iff_of_true ?_ ((findTrace_isSome_iff fl).mp hj)
      rw [getObservationsCostGroupedByNameCall_query, if_pos hj]
      apply containsText_appendRight
      apply containsText_appendRight
      apply containsText_appendRight
      apply containsText_appendLeft
      decide
    | false =>
      refine iff_of_false ?_ (not_exists_trace_of_false hj)
      rw [getObservationsCostGroupedByNameCall_query,
        if_neg (show ¬ ((fl.find? (fun f => f.clickhouseTable == "traces")).isSome = true) by
          simp [hj])]
      exact not_containsText_of_charFree (show ('J' : Char) ∈ "JOIN traces".data by decide)
        (charFree_append (charFree_append (charFree_append (charFree_append
          (by decide) (by decide)) (by decide)) hfq) (by decide))
  · cases hj : (fl.find? (fun f => f.clickhouseTable == "traces")).isSome with
    | true =>
      refine iff_of_true ?_ ((findTrace_isSome_iff fl).mp hj)
      rw [getObservationUsageByTimeCall_query, if_pos hj]
      apply containsText_appendRight
      apply containsText_appendRight
      apply containsText_appendRight
      apply containsText_appendRight
      apply containsText_appendRight
      apply containsText_appendLeft
      decide
    | false =>
      refine iff_of_false ?_ (not_exists_trace_of_false hj)
      rw [getObservationUsageByTimeCall_query,
        if_neg (show ¬ ((fl.find? (fun f => f.clickhouseTable == "traces")).isSome = true) by
          simp [hj])]
      exact not_containsText_of_charFree (show ('J' : Char) ∈ "JOIN traces".data by decide)
        (charFree_append (charFree_append (charFree_append (charFree_append (charFree_append
          (charFree_append (charFree_append (charFree_append
            (by decide) (charFree_J_jsInterp_sel_obs gb)) (by decide)) (by decide)) (by decide))
          hfq) (by decide)) (charFree_J_jsInterp_ord_obs gb)) (by decide))
  · cases hj : (fl.find? (fun f => f.clickhouseTable == "traces")).isSome with
    | true =>
      refine iff_of_true ?_ ((findTrace_isSome_iff fl).mp hj)
      rw [getDistinctModelsCall_query, if_pos hj]
      apply containsText_appendRight
      apply containsText_appendRight
      apply containsText_appendRight
      apply containsText_appendLeft
      decide
    | false =>
      refine iff_of_false ?_ (not_exists_trace_of_false hj)
      rw [getDistinctModelsCall_query,
        if_neg (show ¬ ((fl.find? (fun f => f.clickhouseTable == "traces")).isSome = true) by
          simp [hj])]
      exact not_containsText_of_charFree (show ('J' : Char) ∈ "JOIN traces".data by decide)
        (charFree_append (charFree_append (charFree_append (charFree_append
          (by decide) (by decide)) (by decide)) hfq) (by decide))
  · rw [getModelUsageByUserCall_query]
    apply containsText_appendRight
    apply containsText_appendRight
    apply containsText_appendRight
    apply containsText_appendRight
    decide

/-- Witness for the amended C1 at a traces filter and at the empty list. -/
theorem claim_C1_witness :
    validList [⟨"user_id", "=", "u1", "traces", "String"⟩] ∧
    (containsText "JOIN traces"
        (getObservationsCostGroupedByNameCall "proj1"
          [⟨"user_id", "=", "u1", "traces", "String"⟩]).query ↔
      ∃ f ∈ [(⟨"user_id", "=", "u1", "traces", "String"⟩ : ChFilter)],
        f.clickhouseTable = "traces") := by
  constructor
  · decide
  · exact (claim_C1_join_elision "proj1" [⟨"user_id", "=", "u1", "traces", "String"⟩]
      "day" (by decide)).1

theorem charFree_ite (c : Char) {b : Prop} [Decidable b] {s1 s2 : String}
    (h1 : charFree c s1) (h2 : charFree c s2) : charFree c (if b then s1 else s2) := by
  by_cases hb : b
  · rw [if_pos hb]; exact h1
  · rw [if_neg hb]; exact h2

theorem findScoreTime_isSome_iff (fl : List ChFilter) :
    (fl.find? (fun f =>
        f.field == "timestamp" && (f.operator == ">=" || f.operator == ">"))).isSome = true ↔
      ∃ f ∈ fl, f.field = "timestamp" ∧ (f.operator = ">=" ∨ f.operator = ">") := by
  rw [List.find?_isSome]
  simp only [Bool.and_eq_true, Bool.or_eq_true, beq_iff_eq]

/-- C2: `getScoreAggregate` adds the widened lower-bound predicate
`t.timestamp >= \x7btracesTimestamp: DateTime\x7d - INTERVAL 1 HOUR` — a
one-hour tolerance on the joined trace timestamp, not an equality — iff the
filter list contains both a lower-bound filter on field `timestamp`
(operator `>` or `>=`) and at least one filter on table `traces`. -/
theorem claim_C2_score_time_widening (pid : String) (fl : List ChFilter)
    (hv : validList fl) :
    containsText "t.timestamp >= \x7btracesTimestamp: DateTime\x7d - INTERVAL 1 HOUR"
        (getScoreAggregateCall pid fl).query ↔
      ((∃ f ∈ fl, f.field = "timestamp" ∧ (f.operator = ">=" ∨ f.operator = ">")) ∧
        ∃ f ∈ fl, f.clickhouseTable = "traces") := by
  have hfq := applyQuery_charFree hv (show ('V' : Char) ∉ allowedChars by decide)
  cases hok : ((fl.find? (fun f =>
      f.field == "timestamp" && (f.operator == ">=" || f.operator == ">"))).isSome &&
      (fl.find? (fun f => f.clickhouseTable == "traces")).isSome) with
  | true =>
    have hok2 := hok
    rw [Bool.and_eq_true] at hok2
    obtain ⟨hA, hB⟩ := hok2
    refine iff_of_true ?_ ⟨(findScoreTime_isSome_iff fl).mp hA, (findTrace_isSome_iff fl).mp hB⟩
    rw [getScoreAggregateCall_query, if_pos hB, if_pos hok]
    apply containsText_appendRight
    apply containsText_appendLeft
    decide
  | false =>
    refine iff_of_false ?_ ?_
    · rw [getScoreAggregateCall_query,
        if_neg (show ¬ (((fl.find? (fun f =>
            f.field == "timestamp" && (f.operator == ">=" || f.operator == ">"))).isSome &&
            (fl.find? (fun f => f.clickhouseTable == "traces")).isSome) = true) by
          simp [hok])]
      exact not_containsText_of_charFree
        (show ('V' : Char) ∈
          "t.timestamp >= \x7btracesTimestamp: DateTime\x7d - INTERVAL 1 HOUR".data by decide)
        (charFree_append (charFree_append (charFree_append (charFree_append (charFree_append
          (charFree_append (by decide) (charFree_ite _ (by decide) (by decide))) (by decide))
          hfq) (by decide)) (by decide)) (by decide))
    · rintro ⟨h1, h2⟩
      have hA := (findScoreTime_isSome_iff fl).mpr h1
      have hB := (findTrace_isSome_iff fl).mpr h2
      rw [hA, hB] at hok
      cases hok

/-- Witness for C2: a score-level lower-bound time filter together with a
trace-table filter triggers the widened predicate. -/
theorem claim_C2_witness :
    validList [⟨"timestamp", ">=", "2024-01-01", "scores", "DateTime"⟩,
      ⟨"user_id", "=", "u1", "traces", "String"⟩] ∧
    (containsText "t.timestamp >= \x7btracesTimestamp: DateTime\x7d - INTERVAL 1 HOUR"
        (getScoreAggregateCall "proj1"
          [⟨"timestamp", ">=", "2024-01-01", "scores", "DateTime"⟩,
            ⟨"user_id", "=", "u1", "traces", "String"⟩]).query ↔
      ((∃ f ∈ [(⟨"timestamp", ">=", "2024-01-01", "scores", "DateTime"⟩ : ChFilter),
            ⟨"user_id", "=", "u1", "traces", "String"⟩],
          f.field = "timestamp" ∧ (f.operator = ">=" ∨ f.operator = ">")) ∧
        ∃ f ∈ [(⟨"timestamp", ">=", "2024-01-01", "scores", "DateTime"⟩ : ChFilter),
            ⟨"user_id", "=", "u1", "traces", "String"⟩],
          f.clickhouseTable = "traces")) :=
  ⟨by decide, claim_C2_score_time_widening "proj1"
    [⟨"timestamp", ">=", "2024-01-01", "scores", "DateTime"⟩,
      ⟨"user_id", "=", "u1", "traces", "String"⟩] (by decide)⟩

theorem findObsTime_isSome_iff (fl : List ChFilter) :
    (fl.find? (fun f =>
        f.clickhouseTable == "observations" && (f.field == "start_time" &&
          (f.operator == ">=" || f.operator == ">")))).isSome = true ↔
      ∃ f ∈ fl, f.clickhouseTable = "observations" ∧ f.field = "start_time" ∧
        (f.operator = ">=" ∨ f.operator = ">") := by
  rw [List.find?_isSome]
  simp only [Bool.and_eq_true, Bool.or_eq_true, beq_iff_eq]

/-- C7: `getModelUsageByUser` always joins observations to traces on
`trace_id` and `project_id` (a bare SQL `JOIN`, i.e. an inner join), always
excludes rows whose trace `user_id` is NULL, always groups by `user_id`, and
appends the one-hour-widened trace-timestamp restriction exactly when the
filter list contains a lower-bound filter on `observations.start_time`
(operator `>` or `>=`). -/
theorem claim_C7_model_usage_by_user (pid : String) (fl : List ChFilter)
    (hv : validList fl) :
    containsText "JOIN traces t ON o.trace_id = t.id AND o.project_id = t.project_id"
      (getModelUsageByUserCall pid fl).query ∧
    containsText "AND t.user_id IS NOT NULL" (getModelUsageByUserCall pid fl).query ∧
    containsText "GROUP BY user_id" (getModelUsageByUserCall pid fl).query ∧
    (containsText "AND t.timestamp >= \x7btractTimestamp: DateTime\x7d - INTERVAL 1 HOUR"
        (getModelUsageByUserCall pid fl).query ↔
      ∃ f ∈ fl, f.clickhouseTable = "observations" ∧ f.field = "start_time" ∧
        (f.operator = ">=" ∨ f.operator = ">")) := by
  have hfq := applyQuery_charFree hv (show ('V' : Char) ∉ allowedChars by decide)
  refine ⟨?_, ?_, ?_, ?_⟩
  · rw [getModelUsageByUserCall_query]
    apply containsText_appendRight
    apply containsText_appendRight
    apply containsText_appendRight
    apply containsText_appendRight
    decide
  · rw [getModelUsageByUserCall_query]
    apply containsText_appendRight
    apply containsText_appendRight
    apply containsText_appendRight
    apply containsText_appendRight
    decide
  · rw [getModelUsageByUserCall_query]
    apply containsText_appendLeft
    decide
  · cases ht : (fl.find? (fun f =>
        f.clickhouseTable == "observations" && (f.field == "start_time" &&
          (f.operator == ">=" || f.operator == ">")))).isSome with
    | true =>
      refine iff_of_true ?_ ((findObsTime_isSome_iff fl).mp ht)
      rw [getModelUsageByUserCall_query, if_pos ht]
      apply containsText_appendRight
      apply containsText_appendLeft
      decide
    | false =>
      refine iff_of_false ?_ ?_
      · rw [getModelUsageByUserCall_query,
          if_neg (show ¬ ((fl.find? (fun f =>
              f.clickhouseTable == "observations" && (f.field == "start_time" &&
                (f.operator == ">=" || f.operator == ">")))).isSome = true) by simp [ht])]
        exact not_containsText_of_charFree
          (show ('V' : Char) ∈
            "AND t.timestamp >= \x7btractTimestamp: DateTime\x7d - INTERVAL 1 HOUR".data
            by decide)
          (charFree_append (charFree_append (charFree_append (charFree_append
            (by decide) hfq) (by decide)) (by decide)) (by decide))
      · intro he
        have := (findObsTime_isSome_iff fl).mpr he
        rw [ht] at this
        exact Bool.false_ne_true this

/-- Witness for C7 at a concrete observation start-time filter. -/
theorem claim_C7_witness :
    validList [⟨"start_time", ">", "2024-01-01", "observations", "DateTime"⟩] ∧
    containsText "JOIN traces t ON o.trace_id = t.id AND o.project_id = t.project_id"
      (getModelUsageByUserCall "proj1"
        [⟨"start_time", ">", "2024-01-01", "observations", "DateTime"⟩]).query ∧
    (containsText "AND t.timestamp >= \x7btractTimestamp: DateTime\x7d - INTERVAL 1 HOUR"
        (getModelUsageByUserCall "proj1"
          [⟨"start_time", ">", "2024-01-01", "observations", "DateTime"⟩]).query ↔
      ∃ f ∈ [(⟨"start_time", ">", "2024-01-01", "observations", "DateTime"⟩ : ChFilter)],
        f.clickhouseTable = "observations" ∧ f.field = "start_time" ∧
          (f.operator = ">=" ∨ f.operator = ">")) := by
  have h := claim_C7_model_usage_by_user "proj1"
    [⟨"start_time", ">", "2024-01-01", "observations", "DateTime"⟩] (by decide)
  exact ⟨by decide, h.1, h.2.2.2⟩

theorem extractPH_append (a b : String) (h : phState a.data none = none) :
    extractPH (a ++ b) = extractPH a ++ extractPH b := by
  unfold extractPH
  rw [String.data_append, scanPH_append, h]

theorem extractPH_of_no_brace {s : String} (h : charFree '\x7b' s) : extractPH s = [] :=
  (scanPH_of_no_brace h).1

theorem balanced_of_no_brace {s : String} (h : charFree '\x7b' s) :
    phState s.data none = none :=
  (scanPH_of_no_brace h).2

theorem noBrace_jsInterp_sel_traces (gb : String) :
    charFree '\x7b' (jsInterp (selectTimeseriesColumn gb "timestamp" "timestamp")) := by
  unfold selectTimeseriesColumn
  split <;> decide

theorem noBrace_jsInterp_ord_traces (gb : String) :
    charFree '\x7b' (jsInterp (orderByTimeSeries gb "timestamp")) := by
  unfold orderByTimeSeries
  split <;> decide

theorem noBrace_jsInterp_sel_obs (gb : String) :
    charFree '\x7b' (jsInterp (selectTimeseriesColumn gb "start_time" "start_time")) := by
  unfold selectTimeseriesColumn
  split <;> decide

theorem noBrace_jsInterp_ord_obs (gb : String) :
    charFree '\x7b' (jsInterp (orderByTimeSeries gb "start_time")) := by
  unfold orderByTimeSeries
  split <;> decide

theorem extract_totalTraces (pid : String) (fl : List ChFilter) (hv : validList fl) :
    extractPH (getTotalTracesCall pid fl).query =
      "projectId" :: keysOf (FilterList.apply fl).params := by
  rw [getTotalTracesCall_query,
    extractPH_append _ _ (show phState ("\n    SELECT \n      count(id) as count \n    FROM traces t FINAL \n    WHERE project_id = \x7bprojectId: String\x7d\n    AND " : String).data none = none by decide),
    apply_extract hv,
    show extractPH "\n    SELECT \n      count(id) as count \n    FROM traces t FINAL \n    WHERE project_id = \x7bprojectId: String\x7d\n    AND " = ["projectId"] from by decide]
  rfl

theorem extract_costGrouped (pid : String) (fl : List ChFilter) (hv : validList fl) :
    extractPH (getObservationsCostGroupedByNameCall pid fl).query =
      "projectId" :: keysOf (FilterList.apply fl).params := by
  rw [getObservationsCostGroupedByNameCall_query]
  cases hj : (fl.find? (fun f => f.clickhouseTable == "traces")).isSome with
  | true =>
    rw [if_pos rfl]
    simp only [String.append_assoc]
    rw [extractPH_append _ _ (show phState ("\n    SELECT \n      provided_model_name as name,\n      sumMap(cost_details)[\x27total\x27] as sum_cost_details,\n      sumMap(usage_details)[\x27total\x27] as sum_usage_details\n    FROM observations o FINAL " : String).data none = none by decide)]
    rw [extractPH_append _ _ (show phState ("LEFT JOIN traces t ON o.trace_id = t.id AND o.project_id = t.project_id" : String).data none = none by decide)]
    rw [extractPH_append _ _ (show phState ("\n    WHERE project_id = \x7bprojectId: String\x7d\n    AND " : String).data none = none by decide)]
    rw [extractPH_append _ _ (apply_balanced hv)]
    rw [apply_extract hv]
    rw [show extractPH ("\n    SELECT \n      provided_model_name as name,\n      sumMap(cost_details)[\x27total\x27] as sum_cost_details,\n      sumMap(usage_details)[\x27total\x27] as sum_usage_details\n    FROM observations o FINAL " : String) = ([] : List String) from by decide]
    rw [show extractPH ("LEFT JOIN traces t ON o.trace_id = t.id AND o.project_id = t.project_id" : String) = ([] : List String) from by decide]
    rw [show extractPH ("\n    WHERE project_id = \x7bprojectId: String\x7d\n    AND " : String) = ["projectId"] from by decide]
    rw [show extractPH ("\n    GROUP BY provided_model_name\n    ORDER BY sumMap(cost_details)[\x27total\x27] DESC\n    " : String) = ([] : List String) from by decide]
    simp
  | false =>
    rw [if_neg Bool.false_ne_true]
    simp only [String.append_assoc]
    rw [extractPH_append _ _ (show phState ("\n    SELECT \n      provided_model_name as name,\n      sumMap(cost_details)[\x27total\x27] as sum_cost_details,\n      sumMap(usage_details)[\x27total\x27] as sum_usage_details\n    FROM observations o FINAL " : String).data none = none by decide)]
    rw [extractPH_append _ _ (show phState ("" : String).data none = none by decide)]
    rw [extractPH_append _ _ (show phState ("\n    WHERE project_id = \x7bprojectId: String\x7d\n    AND " : String).data none = none by decide)]
    rw [extractPH_append _ _ (apply_balanced hv)]
    rw [apply_extract hv]
    rw [show extractPH ("\n    SELECT \n      provided_model_name as name,\n      sumMap(cost_details)[\x27total\x27] as sum_cost_details,\n      sumMap(usage_details)[\x27total\x27] as sum_usage_details\n    FROM observations o FINAL " : String) = ([] : List String) from by decide]
    rw [show extractPH ("" : String) = ([] : List String) from by decide]
    rw [show extractPH ("\n    WHERE project_id = \x7bprojectId: String\x7d\n    AND " : String) = ["projectId"] from by decide]
    rw [show extractPH ("\n    GROUP BY provided_model_name\n    ORDER BY sumMap(cost_details)[\x27total\x27] DESC\n    " : String) = ([] : List String) from by decide]
    simp

theorem extract_groupTraces (pid : String) (fl : List ChFilter) (gb : String)
    (hv : validList fl) :
    extractPH (groupTracesByTimeCall pid fl gb).query =
      "projectId" :: keysOf (FilterList.apply fl).params := by
  rw [groupTracesByTimeCall_query]
  simp only [String.append_assoc]
  rw [extractPH_append _ _ (show phState ("\n    SELECT \n      " : String).data none = none by decide)]
  rw [extractPH_append _ _ (balanced_of_no_brace (noBrace_jsInterp_sel_traces gb))]
  rw [extractPH_append _ _ (show phState (",\n      count(*) as count\n    FROM traces t FINAL\n    WHERE project_id = \x7bprojectId: String\x7d\n    AND " : String).data none = none by decide)]
  rw [extractPH_append _ _ (apply_balanced hv)]
  rw [extractPH_append _ _ (show phState ("\n    GROUP BY timestamp\n    " : String).data none = none by decide)]
  rw [extractPH_append _ _ (balanced_of_no_brace (noBrace_jsInterp_ord_traces gb))]
  rw [apply_extract hv]
  rw [show extractPH ("\n    SELECT \n      " : String) = ([] : List String) from by decide]
  rw [extractPH_of_no_brace (noBrace_jsInterp_sel_traces gb)]
  rw [show extractPH (",\n      count(*) as count\n    FROM traces t FINAL\n    WHERE project_id = \x7bprojectId: String\x7d\n    AND " : String) = ["projectId"] from by decide]
  rw [show extractPH ("\n    GROUP BY timestamp\n    " : String) = ([] : List String) from by decide]
  rw [extractPH_of_no_brace (noBrace_jsInterp_ord_traces gb)]
  rw [show extractPH ("\n    " : String) = ([] : List String) from by decide]
  simp

theorem extract_obsUsage (pid : String) (fl : List ChFilter) (gb : String)
    (hv : validList fl) :
    extractPH (getObservationUsageByTimeCall pid fl gb).query =
      "projectId" :: keysOf (FilterList.apply fl).params := by
  rw [getObservationUsageByTimeCall_query]
  cases hj : (fl.find? (fun f => f.clickhouseTable == "traces")).isSome with
  | true =>
    rw [if_pos rfl]
    simp only [String.append_assoc]
    rw [extractPH_append _ _ (show phState ("\n    SELECT \n      " : String).data none = none by decide)]
    rw [extractPH_append _ _ (balanced_of_no_brace (noBrace_jsInterp_sel_obs gb))]
    rw [extractPH_append _ _ (show phState (",\n      sumMap(usage_details)[\x27total\x27] as sum_usage_details,\n      sumMap(cost_details)[\x27total\x27] as sum_cost_details,\n      provided_model_name\n    FROM observations o FINAL\n    " : String).data none = none by decide)]
    rw [extractPH_append _ _ (show phState ("LEFT JOIN traces t ON o.trace_id = t.id AND o.project_id = t.project_id" : String).data none = none by decide)]
    rw [extractPH_append _ _ (show phState ("\n    WHERE project_id = \x7bprojectId: String\x7d\n    AND " : String).data none = none by decide)]
    rw [extractPH_append _ _ (apply_balanced hv)]
    rw [extractPH_append _ _ (show phState ("\n    GROUP BY start_time, provided_model_name\n    " : String).data none = none by decide)]
    rw [extractPH_append _ _ (balanced_of_no_brace (noBrace_jsInterp_ord_obs gb))]
    rw [apply_extract hv]
    rw [show extractPH ("\n    SELECT \n      " : String) = ([] : List String) from by decide]
    rw [extractPH_of_no_brace (noBrace_jsInterp_sel_obs gb)]
    rw [show extractPH (",\n      sumMap(usage_details)[\x27total\x27] as sum_usage_details,\n      sumMap(cost_details)[\x27total\x27] as sum_cost_details,\n      provided_model_name\n    FROM observations o FINAL\n    " : String) = ([] : List String) from by decide]
    rw [show extractPH ("LEFT JOIN traces t ON o.trace_id = t.id AND o.project_id = t.project_id" : String) = ([] : List String) from by decide]
    rw [show extractPH ("\n    WHERE project_id = \x7bprojectId: String\x7d\n    AND " : String) = ["projectId"] from by decide]
    rw [show extractPH ("\n    GROUP BY start_time, provided_model_name\n    " : String) = ([] : List String) from by decide]
    rw [extractPH_of_no_brace (noBrace_jsInterp_ord_obs gb)]
    rw [show extractPH ("\n    " : String) = ([] : List String) from by decide]
    simp
  | false =>
    rw [if_neg Bool.false_ne_true]
    simp only [String.append_assoc]
    rw [extractPH_append _ _ (show phState ("\n    SELECT \n      " : String).data none = none by decide)]
    rw [extractPH_append _ _ (balanced_of_no_brace (noBrace_jsInterp_sel_obs gb))]
    rw [extractPH_append _ _ (show phState (",\n      sumMap(usage_details)[\x27total\x27] as sum_usage_details,\n      sumMap(cost_details)[\x27total\x27] as sum_cost_details,\n      provided_model_name\n    FROM observations o FINAL\n    " : String).data none = none by decide)]
    rw [extractPH_append _ _ (show phState ("" : String).data none = none by decide)]
    rw [extractPH_append _ _ (show phState ("\n    WHERE project_id = \x7bprojectId: String\x7d\n    AND " : String).data none = none by decide)]
    rw [extractPH_append _ _ (apply_balanced hv)]
    rw [extractPH_append _ _ (show phState ("\n    GROUP BY start_time, provided_model_name\n    " : String).data none = none by decide)]
    rw [extractPH_append _ _ (balanced_of_no_brace (noBrace_jsInterp_ord_obs gb))]
    rw [apply_extract hv]
    rw [show extractPH ("\n    SELECT \n      " : String) = ([] : List String) from by decide]
    rw [extractPH_of_no_brace (noBrace_jsInterp_sel_obs gb)]
    rw [show extractPH (",\n      sumMap(usage_details)[\x27total\x27] as sum_usage_details,\n      sumMap(cost_details)[\x27total\x27] as sum_cost_details,\n      provided_model_name\n    FROM observations o FINAL\n    " : String) = ([] : List String) from by decide]
    rw [show extractPH ("" : String) = ([] : List String) from by decide]
    rw [show extractPH ("\n    WHERE project_id = \x7bprojectId: String\x7d\n    AND " : String) = ["projectId"] from by decide]
    rw [show extractPH ("\n    GROUP BY start_time, provided_model_name\n    " : String) = ([] : List String) from by decide]
    rw [extractPH_of_no_brace (noBrace_jsInterp_ord_obs gb)]
    rw [show extractPH ("\n    " : String) = ([] : List String) from by decide]
    simp

theorem extract_distinctModels (pid : String) (fl : List ChFilter) (hv : validList fl) :
    extractPH (getDistinctModelsCall pid fl).query =
      "projectId" :: keysOf (FilterList.apply fl).params := by
  rw [getDistinctModelsCall_query]
  cases hj : (fl.find? (fun f => f.clickhouseTable == "traces")).isSome with
  | true =>
    rw [if_pos rfl]
    simp only [String.append_assoc]
    rw [extractPH_append _ _ (show phState ("\n    SELECT \n      distinct(provided_model_name) as model\n    FROM observations o FINAL\n    " : String).data none = none by decide)]
    rw [extractPH_append _ _ (show phState ("LEFT JOIN traces t ON o.trace_id = t.id AND o.project_id = t.project_id" : String).data none = none by decide)]
    rw [extractPH_append _ _ (show phState ("\n    WHERE project_id = \x7bprojectId: String\x7d\n    AND " : String).data none = none by decide)]
    rw [extractPH_append _ _ (apply_balanced hv)]
    rw [apply_extract hv]
    rw [show extractPH ("\n    SELECT \n      distinct(provided_model_name) as model\n    FROM observations o FINAL\n    " : String) = ([] : List String) from by decide]
    rw [show extractPH ("LEFT JOIN traces t ON o.trace_id = t.id AND o.project_id = t.project_id" : String) = ([] : List String) from by decide]
    rw [show extractPH ("\n    WHERE project_id = \x7bprojectId: String\x7d\n    AND " : String) = ["projectId"] from by decide]
    rw [show extractPH ("\n    " : String) = ([] : List String) from by decide]
    simp
  | false =>
    rw [if_neg Bool.false_ne_true]
    simp only [String.append_assoc]
    rw [extractPH_append _ _ (show phState ("\n    SELECT \n      distinct(provided_model_name) as model\n    FROM observations o FINAL\n    " : String).data none = none by decide)]
    rw [extractPH_append _ _ (show phState ("" : String).data none = none by decide)]
    rw [extractPH_append _ _ (show phState ("\n    WHERE project_id = \x7bprojectId: String\x7d\n    AND " : String).data none = none by decide)]
    rw [extractPH_append _ _ (apply_balanced hv)]
    rw [apply_extract hv]
    rw [show extractPH ("\n    SELECT \n      distinct(provided_model_name) as model\n    FROM observations o FINAL\n    " : String) = ([] : List String) from by decide]
    rw [show extractPH ("" : String) = ([] : List String) from by decide]
    rw [show extractPH ("\n    WHERE project_id = \x7bprojectId: String\x7d\n    AND " : String) = ["projectId"] from by decide]
    rw [show extractPH ("\n    " : String) = ([] : List String) from by decide]
    simp

theorem extract_scoreAgg (pid : String) (fl : List ChFilter) (hv : validList fl) :
    extractPH (getScoreAggregateCall pid fl).query =
      "projectId" :: (keysOf (FilterList.apply fl).params ++
        (if ((fl.find? (fun f => f.field == "timestamp" && (f.operator == ">=" || f.operator == ">"))).isSome &&
            (fl.find? (fun f => f.clickhouseTable == "traces")).isSome) = true then
          ["tracesTimestamp"] else [])) := by
  rw [getScoreAggregateCall_query]
  cases hj : (fl.find? (fun f => f.clickhouseTable == "traces")).isSome with
  | true =>
    cases ht : (fl.find? (fun f => f.field == "timestamp" && (f.operator == ">=" || f.operator == ">"))).isSome with
    | true =>
      rw [if_pos rfl, if_pos (by decide)]
      simp only [String.append_assoc]
      rw [extractPH_append _ _ (show phState ("\n    SELECT \n      s.name,\n      count(*) as count,\n      avg(s.value) as avg_value,\n      s.source,\n      s.data_type\n    FROM scores s FINAL \n     " : String).data none = none by decide)]
      rw [extractPH_append _ _ (show phState ("JOIN traces t FINAL ON t.id = s.trace_id AND t.project_id = s.project_id" : String).data none = none by decide)]
      rw [extractPH_append _ _ (show phState ("\n    WHERE s.project_id = \x7bprojectId: String\x7d\n    AND " : String).data none = none by decide)]
      rw [extractPH_append _ _ (apply_balanced hv)]
      rw [extractPH_append _ _ (show phState ("\n    " : String).data none = none by decide)]
      rw [extractPH_append _ _ (show phState ("AND t.timestamp >= \x7btracesTimestamp: DateTime\x7d - INTERVAL 1 HOUR" : String).data none = none by decide)]
      rw [apply_extract hv]
      rw [show extractPH ("\n    SELECT \n      s.name,\n      count(*) as count,\n      avg(s.value) as avg_value,\n      s.source,\n      s.data_type\n    FROM scores s FINAL \n     " : String) = ([] : List String) from by decide]
      rw [show extractPH ("JOIN traces t FINAL ON t.id = s.trace_id AND t.project_id = s.project_id" : String) = ([] : List String) from by decide]
      rw [show extractPH ("\n    WHERE s.project_id = \x7bprojectId: String\x7d\n    AND " : String) = ["projectId"] from by decide]
      rw [show extractPH ("\n    " : String) = ([] : List String) from by decide]
      rw [show extractPH ("AND t.timestamp >= \x7btracesTimestamp: DateTime\x7d - INTERVAL 1 HOUR" : String) = ["tracesTimestamp"] from by decide]
      rw [show extractPH ("\n    GROUP BY s.name, s.source, s.data_type\n    ORDER BY count(*) DESC\n    " : String) = ([] : List String) from by decide]
      simp
    | false =>
      rw [if_pos rfl, if_neg (by decide)]
      simp only [String.append_assoc]
      rw [extractPH_append _ _ (show phState ("\n    SELECT \n      s.name,\n      count(*) as count,\n      avg(s.value) as avg_value,\n      s.source,\n      s.data_type\n    FROM scores s FINAL \n     " : String).data none = none by decide)]
      rw [extractPH_append _ _ (show phState ("JOIN traces t FINAL ON t.id = s.trace_id AND t.project_id = s.project_id" : String).data none = none by decide)]
      rw [extractPH_append _ _ (show phState ("\n    WHERE s.project_id = \x7bprojectId: String\x7d\n    AND " : String).data none = none by decide)]
      rw [extractPH_append _ _ (apply_balanced hv)]
      rw [extractPH_append _ _ (show phState ("\n    " : String).data none = none by decide)]
      rw [extractPH_append _ _ (show phState ("" : String).data none = none by decide)]
      rw [apply_extract hv]
      rw [show extractPH ("\n    SELECT \n      s.name,\n      count(*) as count,\n      avg(s.value) as avg_value,\n      s.source,\n      s.data_type\n    FROM scores s FINAL \n     " : String) = ([] : List String) from by decide]
      rw [show extractPH ("JOIN traces t FINAL ON t.id = s.trace_id AND t.project_id = s.project_id" : String) = ([] : List String) from by decide]
      rw [show extractPH ("\n    WHERE s.project_id = \x7bprojectId: String\x7d\n    AND " : String) = ["projectId"] from by decide]
      rw [show extractPH ("\n    " : String) = ([] : List String) from by decide]
      rw [show extractPH ("" : String) = ([] : List String) from by decide]
      rw [show extractPH ("\n    GROUP BY s.name, s.source, s.data_type\n    ORDER BY count(*) DESC\n    " : String) = ([] : List String) from by decide]
      simp
  | false =>
    rw [if_neg Bool.false_ne_true, if_neg (by simp)]
    simp only [String.append_assoc]
    rw [extractPH_append _ _ (show phState ("\n    SELECT \n      s.name,\n      count(*) as count,\n      avg(s.value) as avg_value,\n      s.source,\n      s.data_type\n    FROM scores s FINAL \n     " : String).data none = none by decide)]
    rw [extractPH_append _ _ (show phState ("" : String).data none = none by decide)]
    rw [extractPH_append _ _ (show phState ("\n    WHERE s.project_id = \x7bprojectId: String\x7d\n    AND " : String).data none = none by decide)]
    rw [extractPH_append _ _ (apply_balanced hv)]
    rw [extractPH_append _ _ (show phState ("\n    " : String).data none = none by decide)]
    rw [extractPH_append _ _ (show phState ("" : String).data none = none by decide)]
    rw [apply_extract hv]
    rw [show extractPH ("\n    SELECT \n      s.name,\n      count(*) as count,\n      avg(s.value) as avg_value,\n      s.source,\n      s.data_type\n    FROM scores s FINAL \n     " : String) = ([] : List String) from by decide]
    rw [show extractPH ("" : String) = ([] : List String) from by decide]
    rw [show extractPH ("\n    WHERE s.project_id = \x7bprojectId: String\x7d\n    AND " : String) = ["projectId"] from by decide]
    rw [show extractPH ("\n    " : String) = ([] : List String) from by decide]
    rw [show extractPH ("\n    GROUP BY s.name, s.source, s.data_type\n    ORDER BY count(*) DESC\n    " : String) = ([] : List String) from by decide]
    simp

theorem extract_modelUsage (pid : String) (fl : List ChFilter) (hv : validList fl) :
    extractPH (getModelUsageByUserCall pid fl).query =
      "projectId" :: (keysOf (FilterList.apply fl).params ++
        (if (fl.find? (fun f => f.clickhouseTable == "observations" && (f.field == "start_time" && (f.operator == ">=" || f.operator == ">")))).isSome = true then ["tractTimestamp"] else [])) := by
  rw [getModelUsageByUserCall_query]
  cases ht : (fl.find? (fun f => f.clickhouseTable == "observations" && (f.field == "start_time" && (f.operator == ">=" || f.operator == ">")))).isSome with
  | true =>
    rw [if_pos rfl]
    simp only [String.append_assoc]
    rw [extractPH_append _ _ (show phState ("\n    SELECT \n      sumMap(usage_details)[\x27total\x27] as sum_usage_details,\n      sumMap(cost_details)[\x27total\x27] as sum_cost_details,\n      user_id\n    FROM observations o FINAL\n      JOIN traces t ON o.trace_id = t.id AND o.project_id = t.project_id\n    WHERE project_id = \x7bprojectId: String\x7d\n    AND t.user_id IS NOT NULL\n    AND " : String).data none = none by decide)]
    rw [extractPH_append _ _ (apply_balanced hv)]
    rw [extractPH_append _ _ (show phState ("\n    " : String).data none = none by decide)]
    rw [extractPH_append _ _ (show phState ("AND t.timestamp >= \x7btractTimestamp: DateTime\x7d - INTERVAL 1 HOUR" : String).data none = none by decide)]
    rw [apply_extract hv]
    rw [show extractPH ("\n    SELECT \n      sumMap(usage_details)[\x27total\x27] as sum_usage_details,\n      sumMap(cost_details)[\x27total\x27] as sum_cost_details,\n      user_id\n    FROM observations o FINAL\n      JOIN traces t ON o.trace_id = t.id AND o.project_id = t.project_id\n    WHERE project_id = \x7bprojectId: String\x7d\n    AND t.user_id IS NOT NULL\n    AND " : String) = ["projectId"] from by decide]
    rw [show extractPH ("\n    " : String) = ([] : List String) from by decide]
    rw [show extractPH ("AND t.timestamp >= \x7btractTimestamp: DateTime\x7d - INTERVAL 1 HOUR" : String) = ["tractTimestamp"] from by decide]
    rw [show extractPH ("\n    GROUP BY user_id\n    " : String) = ([] : List String) from by decide]
    simp
  | false =>
    rw [if_neg Bool.false_ne_true]
    simp only [String.append_assoc]
    rw [extractPH_append _ _ (show phState ("\n    SELECT \n      sumMap(usage_details)[\x27total\x27] as sum_usage_details,\n      sumMap(cost_details)[\x27total\x27] as sum_cost_details,\n      user_id\n    FROM observations o FINAL\n      JOIN traces t ON o.trace_id = t.id AND o.project_id = t.project_id\n    WHERE project_id = \x7bprojectId: String\x7d\n    AND t.user_id IS NOT NULL\n    AND " : String).data none = none by decide)]
    rw [extractPH_append _ _ (apply_balanced hv)]
    rw [extractPH_append _ _ (show phState ("\n    " : String).data none = none by decide)]
    rw [extractPH_append _ _ (show phState ("" : String).data none = none by decide)]
    rw [apply_extract hv]
    rw [show extractPH ("\n    SELECT \n      sumMap(usage_details)[\x27total\x27] as sum_usage_details,\n      sumMap(cost_details)[\x27total\x27] as sum_cost_details,\n      user_id\n    FROM observations o FINAL\n      JOIN traces t ON o.trace_id = t.id AND o.project_id = t.project_id\n    WHERE project_id = \x7bprojectId: String\x7d\n    AND t.user_id IS NOT NULL\n    AND " : String) = ["projectId"] from by decide]
    rw [show extractPH ("\n    " : String) = ([] : List String) from by decide]
    rw [show extractPH ("" : String) = ([] : List String) from by decide]
    rw [show extractPH ("\n    GROUP BY user_id\n    " : String) = ([] : List String) from by decide]
    simp

theorem keys_spread1_iff (pid : String) (ps : List (String × String)) (x : String) :
    x ∈ keysOf (objSpread [("projectId", pid)] ps) ↔ x = "projectId" ∨ x ∈ keysOf ps := by
  rw [mem_keysOf_objSpread]
  simp [keysOf]

theorem keys_spread2_iff (pid : String) (ps extra : List (String × String)) (x : String) :
    x ∈ keysOf (objSpread (objSpread [("projectId", pid)] ps) extra) ↔
      (x = "projectId" ∨ x ∈ keysOf ps) ∨ x ∈ keysOf extra := by
  rw [mem_keysOf_objSpread, keys_spread1_iff]

theorem keys_extra_score (fl : List ChFilter) :
    keysOf (match fl.find? (fun f =>
        f.field == "timestamp" && (f.operator == ">=" || f.operator == ">")) with
      | some tf => [("tracesTimestamp", convertDateToClickhouseDateTime tf.value)]
      | none => []) =
      if (fl.find? (fun f =>
          f.field == "timestamp" && (f.operator == ">=" || f.operator == ">"))).isSome = true
        then ["tracesTimestamp"] else [] := by
  cases hf : fl.find? (fun f =>
      f.field == "timestamp" && (f.operator == ">=" || f.operator == ">")) with
  | some tf => simp [keysOf]
  | none => simp [keysOf]

theorem keys_extra_model (fl : List ChFilter) :
    keysOf (match fl.find? (fun f =>
        f.clickhouseTable == "observations" && (f.field == "start_time" &&
          (f.operator == ">=" || f.operator == ">"))) with
      | some tf => [("tractTimestamp", tf.value)]
      | none => []) =
      if (fl.find? (fun f =>
          f.clickhouseTable == "observations" && (f.field == "start_time" &&
            (f.operator == ">=" || f.operator == ">")))).isSome = true
        then ["tractTimestamp"] else [] := by
  cases hf : fl.find? (fun f =>
      f.clickhouseTable == "observations" && (f.field == "start_time" &&
        (f.operator == ">=" || f.operator == ">"))) with
  | some tf => simp [keysOf]
  | none => simp [keysOf]

/-- C3 counterexample: with a score-level lower-bound time filter and no
trace filter, `getScoreAggregate` binds the parameter key `tracesTimestamp`
but its query references no such placeholder — an unused key, falsifying
the claimed round-trip. -/
theorem claim_C3_counterexample :
    "tracesTimestamp" ∈ keysOf (getScoreAggregateCall "proj1"
      [⟨"timestamp", ">=", "2024-01-01 00:00:00", "scores", "DateTime"⟩]).params ∧
    "tracesTimestamp" ∉ extractPH (getScoreAggregateCall "proj1"
      [⟨"timestamp", ">=", "2024-01-01 00:00:00", "scores", "DateTime"⟩]).query := by
  constructor
  · decide
  · decide

/-- C3 (amended): for every template except `getScoreAggregate`, the named
placeholders of the query and the keys of the parameter map coincide (every
placeholder has a key and no key is unused).  For `getScoreAggregate` every
placeholder still has a matching key, but the no-unused-keys direction holds
only when a `timestamp` lower-bound filter implies a traces filter is also
present; otherwise `tracesTimestamp` is bound but unreferenced. -/
theorem claim_C3_placeholder_param_matching (pid : String) (fl : List ChFilter)
    (gb : String) (hv : validList fl) :
    (∀ name, name ∈ extractPH (getTotalTracesCall pid fl).query ↔
      name ∈ keysOf (getTotalTracesCall pid fl).params) ∧
    (∀ name, name ∈ extractPH (getObservationsCostGroupedByNameCall pid fl).query ↔
      name ∈ keysOf (getObservationsCostGroupedByNameCall pid fl).params) ∧
    (∀ name, name ∈ extractPH (groupTracesByTimeCall pid fl gb).query ↔
      name ∈ keysOf (groupTracesByTimeCall pid fl gb).params) ∧
    (∀ name, name ∈ extractPH (getObservationUsageByTimeCall pid fl gb).query ↔
      name ∈ keysOf (getObservationUsageByTimeCall pid fl gb).params) ∧
    (∀ name, name ∈ extractPH (getDistinctModelsCall pid fl).query ↔
      name ∈ keysOf (getDistinctModelsCall pid fl).params) ∧
    (∀ name, name ∈ extractPH (getModelUsageByUserCall pid fl).query ↔
      name ∈ keysOf (getModelUsageByUserCall pid fl).params) ∧
    (∀ name, name ∈ extractPH (getScoreAggregateCall pid fl).query →
      name ∈ keysOf (getScoreAggregateCall pid fl).params) ∧
    (((fl.find? (fun f =>
          f.field == "timestamp" && (f.operator == ">=" || f.operator == ">"))).isSome = true →
        (fl.find? (fun f => f.clickhouseTable == "traces")).isSome = true) →
      ∀ name, name ∈ extractPH (getScoreAggregateCall pid fl).query ↔
        name ∈ keysOf (getScoreAggregateCall pid fl).params) := by
  refine ⟨?_, ?_, ?_, ?_, ?_, ?_, ?_, ?_⟩
  · intro name
    rw [extract_totalTraces pid fl hv]
    show _ ↔ name ∈ keysOf (objSpread [("projectId", pid)] (FilterList.apply fl).params)
    rw [keys_spread1_iff]
    simp
  · intro name
    rw [extract_costGrouped pid fl hv]
    show _ ↔ name ∈ keysOf (objSpread [("projectId", pid)] (FilterList.apply fl).params)
    rw [keys_spread1_iff]
    simp
  · intro name
    rw [extract_groupTraces pid fl gb hv]
    show _ ↔ name ∈ keysOf (objSpread [("projectId", pid)] (FilterList.apply fl).params)
    rw [keys_spread1_iff]
    simp
  · intro name
    rw [extract_obsUsage pid fl gb hv]
    show _ ↔ name ∈ keysOf (objSpread [("projectId", pid)] (FilterList.apply fl).params)
    rw [keys_spread1_iff]
    simp
  · intro name
    rw [extract_distinctModels pid fl hv]
    show _ ↔ name ∈ keysOf (objSpread [("projectId", pid)] (FilterList.apply fl).params)
    rw [keys_spread1_iff]
    simp
  · intro name
    rw [extract_modelUsage pid fl hv]
    show _ ↔ name ∈ keysOf (objSpread (objSpread [("projectId", pid)]
      (FilterList.apply fl).params)
      (match fl.find? (fun f =>
          f.clickhouseTable == "observations" && (f.field == "start_time" &&
            (f.operator == ">=" || f.operator == ">"))) with
        | some tf => [("tractTimestamp", tf.value)]
        | none => []))
    rw [keys_spread2_iff, keys_extra_model fl]
    cases ht : (fl.find? (fun f =>
        f.clickhouseTable == "observations" && (f.field == "start_time" &&
          (f.operator == ">=" || f.operator == ">")))).isSome <;>
      first
      | (simp; tauto)
      | simp
  · intro name
    rw [extract_scoreAgg pid fl hv]
    show name ∈ _ → name ∈ keysOf (objSpread (objSpread [("projectId", pid)]
      (FilterList.apply fl).params)
      (match fl.find? (fun f =>
          f.field == "timestamp" && (f.operator == ">=" || f.operator == ">")) with
        | some tf => [("tracesTimestamp", convertDateToClickhouseDateTime tf.value)]
        | none => []))
    rw [keys_spread2_iff, keys_extra_score fl]
    cases ht : (fl.find? (fun f =>
        f.field == "timestamp" && (f.operator == ">=" || f.operator == ">"))).isSome <;>
      cases hj2 : (fl.find? (fun f => f.clickhouseTable == "traces")).isSome <;>
      simp <;> tauto
  · intro haligned name
    rw [extract_scoreAgg pid fl hv]
    show _ ↔ name ∈ keysOf (objSpread (objSpread [("projectId", pid)]
      (FilterList.apply fl).params)
      (match fl.find? (fun f =>
          f.field == "timestamp" && (f.operator == ">=" || f.operator == ">")) with
        | some tf => [("tracesTimestamp", convertDateToClickhouseDateTime tf.value)]
        | none => []))
    rw [keys_spread2_iff, keys_extra_score fl]
    cases ht : (fl.find? (fun f =>
        f.field == "timestamp" && (f.operator == ">=" || f.operator == ">"))).isSome with
    | false => simp
    | true =>
      have hj2 := haligned ht
      rw [hj2]
      simp
      tauto

/-- Witness for the amended C3 at a concrete filter list and placeholder. -/
theorem claim_C3_witness :
    validList [⟨"user_id", "=", "u1", "traces", "String"⟩] ∧
    ("projectId" ∈ extractPH (getTotalTracesCall "proj1"
        [⟨"user_id", "=", "u1", "traces", "String"⟩]).query ↔
      "projectId" ∈ keysOf (getTotalTracesCall "proj1"
        [⟨"user_id", "=", "u1", "traces", "String"⟩]).params) :=
  ⟨by decide, (claim_C3_placeholder_param_matching "proj1"
    [⟨"user_id", "=", "u1", "traces", "String"⟩] "day" (by decide)).1 "projectId"⟩

theorem pairFree_ite (c₁ c₂ : Char) {b : Prop} [Decidable b] {s1 s2 : String}
    (h1 : pairFree c₁ c₂ s1) (h2 : pairFree c₁ c₂ s2) :
    pairFree c₁ c₂ (if b then s1 else s2) := by
  by_cases hb : b
  · rw [if_pos hb]; exact h1
  · rw [if_neg hb]; exact h2

theorem getLast_ne_ite {c : Char} {b : Prop} [Decidable b] {s1 s2 : String}
    (h1 : s1.data.getLast? ≠ some c) (h2 : s2.data.getLast? ≠ some c) :
    (if b then s1 else s2).data.getLast? ≠ some c := by
  by_cases hb : b
  · rw [if_pos hb]; exact h1
  · rw [if_neg hb]; exact h2

theorem groupTraces_noUndef_aux (fl : List ChFilter) (hv : validList fl) (sel ord : String)
    (h1 : pairFree 'f' 'i' sel) (h2 : sel.data.getLast? ≠ some 'f')
    (h3 : pairFree 'f' 'i' ord) (h4 : ord.data.getLast? ≠ some 'f') :
    ¬ containsText "undefined"
      ("\n    SELECT \n      " ++ (sel ++
        (",\n      count(*) as count\n    FROM traces t FINAL\n    WHERE project_id = \x7bprojectId: String\x7d\n    AND " ++
          ((FilterList.apply fl).query ++ ("\n    GROUP BY timestamp\n    " ++
            (ord ++ "\n    ")))))) := by
  apply not_containsText_of_pairFree (show ['f', 'i'] <:+: "undefined".data by decide)
  refine pairFree_append (by decide) ?_ (fun hL _ => absurd hL (by decide))
  refine pairFree_append h1 ?_ (fun hL _ => h2 hL)
  refine pairFree_append (by decide) ?_ (fun hL _ => absurd hL (by decide))
  refine pairFree_append (applyQuery_pairFree hv (by decide)) ?_
    (fun hL _ => applyQuery_getLast_ne hv (by decide) hL)
  refine pairFree_append (by decide) ?_ (fun hL _ => absurd hL (by decide))
  exact pairFree_append h3 (by decide) (fun hL _ => h4 hL)

theorem obsUsage_noUndef_aux (fl : List ChFilter) (hv : validList fl) (sel jn ord : String)
    (h1 : pairFree 'f' 'i' sel) (h2 : sel.data.getLast? ≠ some 'f')
    (h3 : pairFree 'f' 'i' ord) (h4 : ord.data.getLast? ≠ some 'f')
    (h5 : pairFree 'f' 'i' jn) (h6 : jn.data.getLast? ≠ some 'f') :
    ¬ containsText "undefined"
      ("\n    SELECT \n      " ++ (sel ++
        (",\n      sumMap(usage_details)[\x27total\x27] as sum_usage_details,\n      sumMap(cost_details)[\x27total\x27] as sum_cost_details,\n      provided_model_name\n    FROM observations o FINAL\n    " ++
          (jn ++ ("\n    WHERE project_id = \x7bprojectId: String\x7d\n    AND " ++
            ((FilterList.apply fl).query ++
              ("\n    GROUP BY start_time, provided_model_name\n    " ++
                (ord ++ "\n    ")))))))) := by
  apply not_containsText_of_pairFree (show ['f', 'i'] <:+: "undefined".data by decide)
  refine pairFree_append (by decide) ?_ (fun hL _ => absurd hL (by decide))
  refine pairFree_append h1 ?_ (fun hL _ => h2 hL)
  refine pairFree_append (by decide) ?_ (fun hL _ => absurd hL (by decide))
  refine pairFree_append h5 ?_ (fun hL _ => h6 hL)
  refine pairFree_append (by decide) ?_ (fun hL _ => absurd hL (by decide))
  refine pairFree_append (applyQuery_pairFree hv (by decide)) ?_
    (fun hL _ => applyQuery_getLast_ne hv (by decide) hL)
  refine pairFree_append (by decide) ?_ (fun hL _ => absurd hL (by decide))
  exact pairFree_append h3 (by decide) (fun hL _ => h4 hL)

/-- C10: for each of the six supported granularities the time-bucketing
helpers return a clause (their default branches are unreachable) and the SQL
built by `groupTracesByTime` and `getObservationUsageByTime` contains no
occurrence of the literal text `undefined`; for any granularity outside the
six, both helpers return `none` (JS `undefined`) and the templates
interpolate the literal text `undefined` into the SQL instead of failing. -/
theorem claim_C10_undefined_interpolation (pid : String) (fl : List ChFilter)
    (hv : validList fl) (gb : String) (hgb : gb ∈ dateTruncValues)
    (g2 : String) (hg2 : g2 ∉ dateTruncValues) :
    (((selectTimeseriesColumn gb "timestamp" "timestamp").isSome = true ∧
      (orderByTimeSeries gb "timestamp").isSome = true ∧
      (selectTimeseriesColumn gb "start_time" "start_time").isSome = true ∧
      (orderByTimeSeries gb "start_time").isSome = true) ∧
     (¬ containsText "undefined" (groupTracesByTimeCall pid fl gb).query) ∧
     (¬ containsText "undefined" (getObservationUsageByTimeCall pid fl gb).query)) ∧
    (selectTimeseriesColumn g2 "timestamp" "timestamp" = none ∧
     orderByTimeSeries g2 "timestamp" = none ∧
     selectTimeseriesColumn g2 "start_time" "start_time" = none ∧
     orderByTimeSeries g2 "start_time" = none) ∧
    containsText "undefined" (groupTracesByTimeCall pid fl g2).query ∧
    containsText "undefined" (getObservationUsageByTimeCall pid fl g2).query := by
  refine ⟨?_, ⟨selectTimeseriesColumn_default hg2 _ _, orderByTimeSeries_default hg2 _,
    selectTimeseriesColumn_default hg2 _ _, orderByTimeSeries_default hg2 _⟩, ?_, ?_⟩
  · simp only [dateTruncValues, List.mem_cons, List.mem_singleton, List.not_mem_nil,
      or_false] at hgb
    rcases hgb with rfl | rfl | rfl | rfl | rfl | rfl
    · refine ⟨⟨rfl, rfl, rfl, rfl⟩, ?_, ?_⟩
      · rw [groupTracesByTimeCall_query,
          show jsInterp (selectTimeseriesColumn "year" "timestamp" "timestamp") =
            "toStartOfYear(timestamp) as timestamp" from by decide,
          show jsInterp (orderByTimeSeries "year" "timestamp") =
            "ORDER BY timestamp ASC WITH FILL STEP toIntervalYear(1)" from by decide]
        simp only [String.append_assoc]
        exact groupTraces_noUndef_aux fl hv _ _ (by decide) (by decide) (by decide) (by decide)
      · rw [getObservationUsageByTimeCall_query,
          show jsInterp (selectTimeseriesColumn "year" "start_time" "start_time") =
            "toStartOfYear(start_time) as start_time" from by decide,
          show jsInterp (orderByTimeSeries "year" "start_time") =
            "ORDER BY start_time ASC WITH FILL STEP toIntervalYear(1)" from by decide]
        simp only [String.append_assoc]
        exact obsUsage_noUndef_aux fl hv _ _ _ (by decide) (by decide) (by decide) (by decide)
          (pairFree_ite _ _ (by decide) (by decide)) (getLast_ne_ite (by decide) (by decide))
    · refine ⟨⟨rfl, rfl, rfl, rfl⟩, ?_, ?_⟩
      · rw [groupTracesByTimeCall_query,
          show jsInterp (selectTimeseriesColumn "month" "timestamp" "timestamp") =
            "toStartOfMonth(timestamp) as timestamp" from by decide,
          show jsInterp (orderByTimeSeries "month" "timestamp") =
            "ORDER BY timestamp ASC WITH FILL STEP toIntervalMonth(1)" from by decide]
        simp only [String.append_assoc]
        exact groupTraces_noUndef_aux fl hv _ _ (by decide) (by decide) (by decide) (by decide)
      · rw [getObservationUsageByTimeCall_query,
          show jsInterp (selectTimeseriesColumn "month" "start_time" "start_time") =
            "toStartOfMonth(start_time) as start_time" from by decide,
          show jsInterp (orderByTimeSeries "month" "start_time") =
            "ORDER BY start_time ASC WITH FILL STEP toIntervalMonth(1)" from by decide]
        simp only [String.append_assoc]
        exact obsUsage_noUndef_aux fl hv _ _ _ (by decide) (by decide) (by decide) (by decide)
          (pairFree_ite _ _ (by decide) (by decide)) (getLast_ne_ite (by decide) (by decide))
    · refine ⟨⟨rfl, rfl, rfl, rfl⟩, ?_, ?_⟩
      · rw [groupTracesByTimeCall_query,
          show jsInterp (selectTimeseriesColumn "week" "timestamp" "timestamp") =
            "toStartOfWeek(timestamp) as timestamp" from by decide,
          show jsInterp (orderByTimeSeries "week" "timestamp") =
            "ORDER BY timestamp ASC WITH FILL STEP toIntervalWeek(1)" from by decide]
        simp only [String.append_assoc]
        exact groupTraces_noUndef_aux fl hv _ _ (by decide) (by decide) (by decide) (by decide)
      · rw [getObservationUsageByTimeCall_query,
          show jsInterp (selectTimeseriesColumn "week" "start_time" "start_time") =
            "toStartOfWeek(start_time) as start_time" from by decide,
          show jsInterp (orderByTimeSeries "week" "start_time") =
            "ORDER BY start_time ASC WITH FILL STEP toIntervalWeek(1)" from by decide]
        simp only [String.append_assoc]
        exact obsUsage_noUndef_aux fl hv _ _ _ (by decide) (by decide) (by decide) (by decide)
          (pairFree_ite _ _ (by decide) (by decide)) (getLast_ne_ite (by decide) (by decide))
    · refine ⟨⟨rfl, rfl, rfl, rfl⟩, ?_, ?_⟩
      · rw [groupTracesByTimeCall_query,
          show jsInterp (selectTimeseriesColumn "day" "timestamp" "timestamp") =
            "toStartOfDay(timestamp) as timestamp" from by decide,
          show jsInterp (orderByTimeSeries "day" "timestamp") =
            "ORDER BY timestamp ASC WITH FILL STEP toIntervalDay(1)" from by decide]
        simp only [String.append_assoc]
        exact groupTraces_noUndef_aux fl hv _ _ (by decide) (by decide) (by decide) (by decide)
      · rw [getObservationUsageByTimeCall_query,
          show jsInterp (selectTimeseriesColumn "day" "start_time" "start_time") =
            "toStartOfDay(start_time) as start_time" from by decide,
          show jsInterp (orderByTimeSeries "day" "start_time") =
            "ORDER BY start_time ASC WITH FILL STEP toIntervalDay(1)" from by decide]
        simp only [String.append_assoc]
        exact obsUsage_noUndef_aux fl hv _ _ _ (by decide) (by decide) (by decide) (by decide)
          (pairFree_ite _ _ (by decide) (by decide)) (getLast_ne_ite (by decide) (by decide))
    · refine ⟨⟨rfl, rfl, rfl, rfl⟩, ?_, ?_⟩
      · rw [groupTracesByTimeCall_query,
          show jsInterp (selectTimeseriesColumn "hour" "timestamp" "timestamp") =
            "toStartOfHour(timestamp) as timestamp" from by decide,
          show jsInterp (orderByTimeSeries "hour" "timestamp") =
            "ORDER BY timestamp ASC WITH FILL STEP toIntervalHour(1)" from by decide]
        simp only [String.append_assoc]
        exact groupTraces_noUndef_aux fl hv _ _ (by decide) (by decide) (by decide) (by decide)
      · rw [getObservationUsageByTimeCall_query,
          show jsInterp (selectTimeseriesColumn "hour" "start_time" "start_time") =
            "toStartOfHour(start_time) as start_time" from by decide,
          show jsInterp (orderByTimeSeries "hour" "start_time") =
            "ORDER BY start_time ASC WITH FILL STEP toIntervalHour(1)" from by decide]
        simp only [String.append_assoc]
        exact obsUsage_noUndef_aux fl hv _ _ _ (by decide) (by decide) (by decide) (by decide)
          (pairFree_ite _ _ (by decide) (by decide)) (getLast_ne_ite (by decide) (by decide))
    · refine ⟨⟨rfl, rfl, rfl, rfl⟩, ?_, ?_⟩
      · rw [groupTracesByTimeCall_query,
          show jsInterp (selectTimeseriesColumn "minute" "timestamp" "timestamp") =
            "toStartOfMinute(timestamp) as timestamp" from by decide,
          show jsInterp (orderByTimeSeries "minute" "timestamp") =
            "ORDER BY timestamp ASC WITH FILL STEP toIntervalMinute(1)" from by decide]
        simp only [String.append_assoc]
        exact groupTraces_noUndef_aux fl hv _ _ (by decide) (by decide) (by decide) (by decide)
      · rw [getObservationUsageByTimeCall_query,
          show jsInterp (selectTimeseriesColumn "minute" "start_time" "start_time") =
            "toStartOfMinute(start_time) as start_time" from by decide,
          show jsInterp (orderByTimeSeries "minute" "start_time") =
            "ORDER BY start_time ASC WITH FILL STEP toIntervalMinute(1)" from by decide]
        simp only [String.append_assoc]
        exact obsUsage_noUndef_aux fl hv _ _ _ (by decide) (by decide) (by decide) (by decide)
          (pairFree_ite _ _ (by decide) (by decide)) (getLast_ne_ite (by decide) (by decide))
  · rw [groupTracesByTimeCall_query, orderByTimeSeries_default hg2]
    show containsText _ (_ ++ _)
    apply containsText_appendRight
    apply containsText_appendLeft
    exact containsText_self _
  · rw [getObservationUsageByTimeCall_query, orderByTimeSeries_default hg2]
    show containsText _ (_ ++ _)
    apply containsText_appendRight
    apply containsText_appendLeft
    exact containsText_self _

/-- Witness for C10 at granularity `day`, out-of-range `quarter` and the
empty filter list. -/
theorem claim_C10_witness :
    validList ([] : List ChFilter) ∧ "day" ∈ dateTruncValues ∧
    "quarter" ∉ dateTruncValues ∧
    ¬ containsText "undefined" (groupTracesByTimeCall "proj1" [] "day").query ∧
    containsText "undefined" (groupTracesByTimeCall "proj1" [] "quarter").query := by
  have h := claim_C10_undefined_interpolation "proj1" [] (by decide) "day" (by decide)
    "quarter" (by decide)
  exact ⟨by decide, by decide, by decide, h.1.2.1, h.2.2.1⟩

/-- C6 counterexample: `getScoreAggregate` returns the store rows unchanged;
`count` and `avg_value` stay the wire strings (here the texts 5 and 2.5)
rather than being parsed into numbers as the claim states. -/
theorem claim_C6_counterexample :
    getScoreAggregate (fun _ _ => [⟨"accuracy", "5", "2.5", "API", "NUMERIC"⟩]) "proj1" [] =
      [⟨"accuracy", "5", "2.5", "API", "NUMERIC"⟩] ∧
    (getScoreAggregate (fun _ _ => [⟨"accuracy", "5", "2.5", "API", "NUMERIC"⟩]) "proj1" []).map
      (fun r => r.count) = ["5"] :=
  ⟨rfl, rfl⟩

/-- C6 (amended): `groupTracesByTime`, `getObservationUsageByTime` and
`getModelUsageByUser` reshape each wire row — timestamp text becomes a date
value and the string-typed aggregates are parsed with `Number` (the
already-numeric cost sum passes through) — while `getScoreAggregate`,
`getObservationsCostGroupedByName` and `getDistinctModels` return the store
rows unchanged, so `getScoreAggregate` keeps `count` and `avg_value` as
strings.  The concrete conjuncts evaluate the conversions on sample rows. -/
theorem claim_C6_row_reshaping
    (sG : String → List (String × String) → List TracesByTimeRow)
    (sO : String → List (String × String) → List ObsUsageByTimeRow)
    (sM : String → List (String × String) → List ModelUsageByUserRow)
    (sS : String → List (String × String) → List ScoreAggRow)
    (sC : String → List (String × String) → List CostByNameRow)
    (sD : String → List (String × String) → List DistinctModelRow)
    (pid : String) (fl : List ChFilter) (gb : String) :
    (groupTracesByTime sG pid fl gb =
      (sG (groupTracesByTimeCall pid fl gb).query
        (groupTracesByTimeCall pid fl gb).params).map
        (fun row => { timestamp := ⟨row.timestamp⟩, countTraceId := jsNumber row.count })) ∧
    (getObservationUsageByTime sO pid fl gb =
      (sO (getObservationUsageByTimeCall pid fl gb).query
        (getObservationUsageByTimeCall pid fl gb).params).map
        (fun row => ⟨⟨row.start_time⟩, jsNumber row.sum_usage_details,
          row.sum_cost_details, row.provided_model_name⟩)) ∧
    (getModelUsageByUser sM pid fl =
      (sM (getModelUsageByUserCall pid fl).query
        (getModelUsageByUserCall pid fl).params).map
        (fun row => ⟨jsNumber row.sum_usage_details,
          row.sum_cost_details, row.user_id⟩)) ∧
    (getScoreAggregate sS pid fl =
      sS (getScoreAggregateCall pid fl).query (getScoreAggregateCall pid fl).params) ∧
    (getObservationsCostGroupedByName sC pid fl =
      sC (getObservationsCostGroupedByNameCall pid fl).query
        (getObservationsCostGroupedByNameCall pid fl).params) ∧
    (getDistinctModels sD pid fl =
      sD (getDistinctModelsCall pid fl).query (getDistinctModelsCall pid fl).params) ∧
    groupTracesByTime (fun _ _ => [⟨"2024-01-01T10:00:00Z", "7"⟩]) pid fl gb =
      [{ timestamp := ⟨"2024-01-01T10:00:00Z"⟩, countTraceId := 7 }] ∧
    getModelUsageByUser (fun _ _ => [⟨"123", 45, "user-1"⟩]) pid fl =
      [{ sumUsageDetails := 123, sumCostDetails := 45, userId := "user-1" }] := by
  refine ⟨rfl, rfl, rfl, rfl, rfl, rfl, ?_, ?_⟩
  · show List.map (fun row : TracesByTimeRow =>
        (⟨⟨row.timestamp⟩, jsNumber row.count⟩ : TracesByTimeResult))
      [⟨"2024-01-01T10:00:00Z", "7"⟩] =
      [{ timestamp := ⟨"2024-01-01T10:00:00Z"⟩, countTraceId := 7 }]
    decide
  · show List.map (fun row : ModelUsageByUserRow =>
        (⟨jsNumber row.sum_usage_details, row.sum_cost_details, row.user_id⟩ :
          ModelUsageByUserResult))
      [⟨"123", 45, "user-1"⟩] =
      [{ sumUsageDetails := 123, sumCostDetails := 45, userId := "user-1" }]
    decide
